import Mathlib

/-!
# controlbox: session and limit state core

A shallow embedding of `controlbox.go`, `frontend.go`, `websocketclient.go` and
`main.go`.  The process state (`controlbox` plus the package variable
`remoteSki`) is passed explicitly; every call that leaves the core (a message
handed to the websocket client, a write to a remote entity, a registration
request to the service) is appended to a trace kept in `World.out`.

Conventions of the embedding:

* `time.Duration` is an `Int` holding an int64 count of nanoseconds; products
  wrap modulo `2^64` and quotients truncate toward zero, as in Go.
* `float64` payloads are the rationals they denote.
* Go maps keyed by SKI are association lists with at most one entry per key.
* The answers of the use case collaborators (`h.uclpc`, `h.uclpp`, `h.ucmgcp`,
  `h.ucmpc`) and the order in which `range` visits a map are supplied by an `Env`.
* A pointer that the code dereferences is an `Option`; dereferencing `none` panics.
* `fmt.Println` output is not part of the trace.
* A handler or an iteration of `reader` returns `none` when the Go code panics.
* The state is the one after `run()` has completed `Setup`: the three maps are
  allocated and the four use cases are installed.
-/

namespace Controlbox

/-! ## Machine arithmetic -/

/-- Go `time.Duration`: an int64 number of nanoseconds. -/
abbrev Duration := Int

/-- Go `float64` payloads, modelled by the rational they denote. -/
abbrev Float64 := ℚ

/-- Two's complement reduction of an integer into the int64 range. -/
def wrapInt64 (x : Int) : Int := (x + 2 ^ 63) % 2 ^ 64 - 2 ^ 63

/-- Constant `time.Second`. -/
def Second : Duration := 1000000000

/-- Go `a * b` on `time.Duration` (wraps on overflow). -/
def mulDuration (a b : Duration) : Duration := wrapInt64 (a * b)

/-- Go `a / b` on `time.Duration` (integer quotient truncated toward zero). -/
def divDuration (a b : Duration) : Duration := Int.tdiv a b

/-- Go conversion `time.Duration(f)` of a float64: the fraction is discarded.
Outside the int64 range Go leaves the result to the implementation; the value
taken here is the one of amd64, the smallest int64. -/
def toDuration (f : Float64) : Duration :=
  let t := Int.tdiv f.num f.den
  if -9223372036854775808 ≤ t ∧ t ≤ 9223372036854775807 then t else -9223372036854775808

/-- Go conversion `float64(d)`; exact for `|d| ≤ 2^53`, which holds at both call
sites, where `d` is a duration already divided by `time.Second`. -/
def float64 (d : Duration) : Float64 := (d : ℚ)

/-! ## Go maps keyed by SKI -/

/-- Lookup `m[k]` with the comma-ok result. -/
def mapGet {V : Type} (m : List (String × V)) (k : String) : Option V :=
  match m with
  | [] => none
  | (k', v) :: rest => if k' = k then some v else mapGet rest k

/-- Assignment `m[k] = v`: replaces the entry of `k` or adds one. -/
def mapSet {V : Type} (m : List (String × V)) (k : String) (v : V) : List (String × V) :=
  match m with
  | [] => [(k, v)]
  | (k', v') :: rest => if k' = k then (k, v) :: rest else (k', v') :: mapSet rest k v

/-- Go `slices.IndexFunc`: index of the first element satisfying `f`, or `-1`. -/
def IndexFunc {α : Type} (s : List α) (f : α → Bool) : Int :=
  match s with
  | [] => -1
  | x :: rest =>
    if f x then 0
    else
      let i := IndexFunc rest f
      if i < 0 then -1 else i + 1

/-- Go index expression `s[i]`; `none` is the run-time panic for an index out of range. -/
def index {α : Type} (s : List α) (i : Int) : Option α :=
  if i < 0 then none else s.get? i.toNat

/-! ## Data model -/

/-- Modelled from the spec: the declaration of `ucapi.LoadLimit` is not in the
sources; the limit is `{isActive, value, duration}`, the three fields the code
reads and writes. -/
structure LoadLimit where
  Duration : Duration
  IsActive : Bool
  Value : Float64
  deriving DecidableEq

instance : Inhabited LoadLimit := ⟨⟨0, false, 0⟩⟩

structure failsafeLimits where
  Value : Float64
  Duration : Duration
  deriving DecidableEq

/-- Modelled from the spec: the declaration of `shipapi.RemoteService` is not in
the sources; a discovered service is an identity plus a descriptor. -/
structure RemoteService where
  Ski : String
  Descriptor : String
  deriving DecidableEq

/-- One remote feature: `Name` is `f.String()` and `Role` is `f.Role()`. -/
structure Feature where
  Name : String
  Role : String
  deriving DecidableEq

/-- What the accessors of a `spineapi.EntityRemoteInterface` return.
`DeviceSki` is `entity.Device().Ski()`. -/
structure Entity where
  Address : String
  EntityType : String
  Features : List Feature
  DeviceSki : String
  deriving DecidableEq

/-- One element of `device.UseCases()`. `Actor` is the pointer `uc.Actor` and
each element of `UseCaseSupport` is the pointer `ucs.UseCaseName` of one
supported use case; `none` is a nil pointer. -/
structure UseCaseInformation where
  Actor : Option String
  UseCaseSupport : List (Option String)
  deriving DecidableEq

/-- What the accessors of a non-nil `spineapi.DeviceRemoteInterface` return.
`DeviceType` is the pointer returned by `device.DeviceType()`; `none` is nil. -/
structure Device where
  Ski : String
  DeviceType : Option String
  Entities : List Entity
  UseCases : List UseCaseInformation
  deriving DecidableEq

structure RemoteInfo where
  Service : RemoteService
  Device : Option Device
  UseCases : List String
  deriving DecidableEq

structure UseCaseInfo where
  Actor : String
  Names : List String
  deriving DecidableEq

structure EntityInfo where
  Address : String
  Name : String
  SKI : String
  Type_ : String
  Features : List String
  deriving DecidableEq

structure Message where
  SKI : String := ""
  Type_ : Int := 0
  Text : String := ""
  Limit : LoadLimit := ⟨0, false, 0⟩
  Value : Float64 := 0
  Values : List Float64 := []
  ServiceList : List RemoteService := []
  EntityInfos : List EntityInfo := []
  UseCaseInfos : List (String × List UseCaseInfo) := []
  UseCase : String := ""
  deriving DecidableEq

/-! ## Message types (`frontend.go`) -/

abbrev Text : Int := 0
abbrev QRCode : Int := 1
abbrev Acknowledge : Int := 2
abbrev ServiceListChanged : Int := 3
abbrev GetServiceList : Int := 4
abbrev SelectService : Int := 5
abbrev GetEntityInfos : Int := 6
abbrev GetUseCaseInfos : Int := 7
abbrev GetAllData : Int := 8
abbrev SetConsumptionLimit : Int := 9
abbrev GetConsumptionLimit : Int := 10
abbrev SetProductionLimit : Int := 11
abbrev GetProductionLimit : Int := 12
abbrev SetConsumptionFailsafeValue : Int := 13
abbrev GetConsumptionFailsafeValue : Int := 14
abbrev SetConsumptionFailsafeDuration : Int := 15
abbrev GetConsumptionFailsafeDuration : Int := 16
abbrev SetProductionFailsafeValue : Int := 17
abbrev GetProductionFailsafeValue : Int := 18
abbrev SetProductionFailsafeDuration : Int := 19
abbrev GetProductionFailsafeDuration : Int := 20
abbrev GetConsumptionNominalMax : Int := 21
abbrev GetProductionNominalMax : Int := 22
abbrev GetConsumptionHeartbeat : Int := 23
abbrev StopConsumptionHeartbeat : Int := 24
abbrev StartConsumptionHeartbeat : Int := 25
abbrev GetProductionHeartbeat : Int := 26
abbrev StopProductionHeartbeat : Int := 27
abbrev StartProductionHeartbeat : Int := 28
abbrev GetPowerLimitationFactor : Int := 29
abbrev GetPower : Int := 30
abbrev GetPowerPerPhase : Int := 31
abbrev GetEnergyFeedIn : Int := 32
abbrev GetEnergyConsumed : Int := 33
abbrev GetCurrentPerPhase : Int := 34
abbrev GetVoltagePerPhase : Int := 35
abbrev GetFrequency : Int := 36

/-! ## Process state, collaborators and trace -/

/-- The mutable fields of `controlbox`. -/
structure controlbox where
  isConnected : List (String × Bool)
  remoteInfos : List (String × RemoteInfo)
  useCaseInfos : List (String × List UseCaseInfo)
  consumptionLimits : LoadLimit
  productionLimits : LoadLimit
  consumptionFailsafeLimits : failsafeLimits
  productionFailsafeLimits : failsafeLimits
  consumptionNominalMax : Float64
  productionNominalMax : Float64
  currentRemoteServices : List RemoteService
  deriving DecidableEq

/-- One element of `RemoteEntitiesScenarios()`. -/
structure RemoteEntityScenarios where
  Entity : Entity
  Scenarios : List Nat
  deriving DecidableEq

/-- Answers of `h.uclpc`: a read is `none` when it returns an error, a write
is `some msgCounter` or `none` on error. -/
structure EgLPC where
  ConsumptionLimit : Entity → Option LoadLimit
  FailsafeConsumptionActivePowerLimit : Entity → Option Float64
  FailsafeDurationMinimum : Entity → Option Duration
  ConsumptionNominalMax : Entity → Option Float64
  RemoteEntitiesScenarios : List RemoteEntityScenarios
  WriteConsumptionLimit : Entity → LoadLimit → Option Nat
  WriteFailsafeConsumptionActivePowerLimit : Entity → Float64 → Option Nat
  WriteFailsafeDurationMinimum : Entity → Duration → Option Nat

/-- Answers of `h.uclpp`. -/
structure EgLPP where
  ProductionLimit : Entity → Option LoadLimit
  FailsafeProductionActivePowerLimit : Entity → Option Float64
  FailsafeDurationMinimum : Entity → Option Duration
  ProductionNominalMax : Entity → Option Float64
  RemoteEntitiesScenarios : List RemoteEntityScenarios
  WriteProductionLimit : Entity → LoadLimit → Option Nat
  WriteFailsafeProductionActivePowerLimit : Entity → Float64 → Option Nat
  WriteFailsafeDurationMinimum : Entity → Duration → Option Nat

/-- Answers of `h.ucmgcp`. -/
structure MaMGCP where
  PowerLimitationFactor : Entity → Option Float64
  Power : Entity → Option Float64
  EnergyFeedIn : Entity → Option Float64
  EnergyConsumed : Entity → Option Float64
  CurrentPerPhase : Entity → Option (List Float64)
  VoltagePerPhase : Entity → Option (List Float64)
  Frequency : Entity → Option Float64

/-- Answers of `h.ucmpc`. -/
structure MaMPC where
  Power : Entity → Option Float64
  PowerPerPhase : Entity → Option (List Float64)
  EnergyConsumed : Entity → Option Float64
  EnergyProduced : Entity → Option Float64
  CurrentPerPhase : Entity → Option (List Float64)
  VoltagePerPhase : Entity → Option (List Float64)
  Frequency : Entity → Option Float64

/-- What the surroundings supply during one call: the answers of the four use
case collaborators and `rangeOrder`, the order in which a `range` over
`remoteInfos` visits the entries, some rearrangement of them chosen by the Go
runtime. -/
structure Env where
  uclpc : EgLPC
  uclpp : EgLPP
  ucmgcp : MaMGCP
  ucmpc : MaMPC
  rangeOrder : (m : List (String × RemoteInfo)) → { l : List (String × RemoteInfo) // l.Perm m }

/-- An outbound write to a remote entity, with the value it carries. -/
inductive DeviceWrite where
  | uclpcWriteConsumptionLimit (entity : Entity) (limit : LoadLimit)
  | uclpcWriteFailsafeConsumptionActivePowerLimit (entity : Entity) (value : Float64)
  | uclpcWriteFailsafeDurationMinimum (entity : Entity) (duration : Duration)
  | uclppWriteProductionLimit (entity : Entity) (limit : LoadLimit)
  | uclppWriteFailsafeProductionActivePowerLimit (entity : Entity) (value : Float64)
  | uclppWriteFailsafeDurationMinimum (entity : Entity) (duration : Duration)
  deriving DecidableEq

/-- One call leaving the core. `sendMessage` is a message handed to
`WebsocketClient.sendMessage`, whose returned error every caller discards;
`write` is a device write together with the collaborator's answer. -/
inductive Effect where
  | sendMessage (msg : Message)
  | write (call : DeviceWrite) (result : Option Nat)
  | RegisterRemoteSKI (ski : String)
  | SetTrusted (ski : String)
  deriving DecidableEq

/-- The process state: the `controlbox` value, the package variable `remoteSki`
and the calls made so far, oldest first. -/
structure World where
  h : controlbox
  remoteSki : String
  out : List Effect
  deriving DecidableEq

/-- Event kinds of `OnLPCEvent`; `other` is every `api.EventType` without a case. -/
inductive LPCEvent where
  | UseCaseSupportUpdate
  | DataUpdateLimit
  | DataUpdateFailsafeConsumptionActivePowerLimit
  | DataUpdateFailsafeDurationMinimum
  | other
  deriving DecidableEq

/-- Event kinds of `OnLPPEvent`. -/
inductive LPPEvent where
  | UseCaseSupportUpdate
  | DataUpdateLimit
  | DataUpdateFailsafeProductionActivePowerLimit
  | DataUpdateFailsafeDurationMinimum
  | other
  deriving DecidableEq

/-- Event kinds of `OnMGCPEvent`. -/
inductive MGCPEvent where
  | UseCaseSupportUpdate
  | DataUpdatePowerLimitationFactor
  | DataUpdatePower
  | DataUpdateEnergyFeedIn
  | DataUpdateEnergyConsumed
  | DataUpdateCurrentPerPhase
  | DataUpdateVoltagePerPhase
  | DataUpdateFrequency
  | other
  deriving DecidableEq

/-- Event kinds of `OnMPCEvent`. -/
inductive MPCEvent where
  | UseCaseSupportUpdate
  | DataUpdatePower
  | DataUpdatePowerPerPhase
  | DataUpdateEnergyConsumed
  | DataUpdateEnergyProduced
  | DataUpdateCurrentsPerPhase
  | DataUpdateVoltagePerPhase
  | DataUpdateFrequency
  | other
  deriving DecidableEq

/-! ## `websocketclient.go` -/

/-- The trace records the message handed to `sendMessage`. Whether a client is
connected and the socket write succeeds only decides the returned error, which
no caller looks at. -/
def sendMessage (msg : Message) (w : World) : World :=
  { w with out := w.out ++ [Effect.sendMessage msg] }

def sendNotification (ski : String) (messageType : Int) (uc : String) (w : World) : World :=
  sendMessage { SKI := ski, Type_ := messageType, UseCase := uc } w

def sendText (messageType : Int) (text : String) (w : World) : World :=
  sendMessage { Type_ := messageType, Text := text } w

def sendValue (ski : String) (messageType : Int) (useCase : String) (value : Float64)
    (w : World) : World :=
  sendMessage { SKI := ski, Type_ := messageType, Value := value, UseCase := useCase } w

def sendValueArr (ski : String) (messageType : Int) (useCase : String) (values : List Float64)
    (w : World) : World :=
  sendMessage { SKI := ski, Type_ := messageType, Values := values, UseCase := useCase } w

def sendLimit (ski : String) (messageType : Int) (useCase : String) (limit : LoadLimit)
    (w : World) : World :=
  sendMessage { SKI := ski, Type_ := messageType, Limit := limit, UseCase := useCase } w

def sendServiceList (messageType : Int) (services : List RemoteService) (w : World) : World :=
  sendMessage { Type_ := messageType, ServiceList := services } w

/-- A loop that computes one value per element through a pointer dereference:
`none` is the panic at the first nil pointer. -/
def derefAll {α β : Type} (f : α → Option β) : List α → Option (List β)
  | [] => some []
  | a :: rest =>
    match f a, derefAll f rest with
    | some b, some bs => some (b :: bs)
    | _, _ => none

/-- The rows `sendEntityInfo` builds for one map entry, one per entity of the
device. Each row dereferences `*device.DeviceType()`, which panics for a nil
pointer; a device without entities is never dereferenced. -/
def entityInfosOf (remoteInfo : RemoteInfo) : Option (List EntityInfo) :=
  match remoteInfo.Device with
  | some device =>
    derefAll (fun entity =>
      match device.DeviceType with
      | some deviceType =>
        some
          { Address := entity.Address
            Name := entity.EntityType
            SKI := device.Ski
            Type_ := deviceType
            Features := entity.Features.map fun f => f.Name ++ ", " ++ f.Role }
      | none => none) device.Entities
  | none => some []

/-- The rows of all visited entries, in the order of the visit. -/
def entityInfoRows : List (String × RemoteInfo) → Option (List EntityInfo)
  | [] => some []
  | kv :: rest =>
    match entityInfosOf kv.2, entityInfoRows rest with
    | some rows, some more => some (rows ++ more)
    | _, _ => none

/-- The entries of the map are visited in the order `rangeOrder` that the
runtime chooses for this `range`; the result is `none` when a row panics. -/
def sendEntityInfo
    (rangeOrder : (m : List (String × RemoteInfo)) → { l : List (String × RemoteInfo) // l.Perm m })
    (messageType : Int) (remoteInfos : List (String × RemoteInfo)) (w : World) :
    Option World :=
  match entityInfoRows (rangeOrder remoteInfos).val with
  | some entityInfos => some (sendMessage { Type_ := messageType, EntityInfos := entityInfos } w)
  | none => none

def sendUseCaseInfo (messageType : Int) (useCaseInfos : List (String × List UseCaseInfo))
    (w : World) : World :=
  sendMessage { Type_ := messageType, UseCaseInfos := useCaseInfos } w

/-! ## `controlbox.go`: service callbacks and registry -/

def RemoteSKIConnected (ski : String) (w : World) : World :=
  let w := { w with remoteSki := ski }
  let w := { w with h := { w.h with isConnected := mapSet w.h.isConnected ski true } }
  sendText SelectService ski w

def RemoteSKIDisconnected (ski : String) (w : World) : World :=
  let w := { w with h := { w.h with isConnected := mapSet w.h.isConnected ski false } }
  sendNotification "" ServiceListChanged "" w

def VisibleRemoteServicesUpdated (entries : List RemoteService) (w : World) : World :=
  let w := entries.foldl
    (fun w element => { w with out := w.out ++ [Effect.SetTrusted element.Ski] }) w
  let w := { w with h := { w.h with currentRemoteServices := entries } }
  sendNotification "" ServiceListChanged "" w

/-- The result is `none` when `h.currentRemoteServices[indx]` panics. -/
def updateEntityInfos (ski : String) (device : Device) (uc : String) (w : World) :
    Option World :=
  match mapGet w.h.remoteInfos ski with
  | none =>
    let indx := IndexFunc w.h.currentRemoteServices (fun v => v.Ski == ski)
    match index w.h.currentRemoteServices indx with
    | none => none
    | some service =>
      let info : RemoteInfo := { Service := service, Device := some device, UseCases := [uc] }
      some { w with h := { w.h with remoteInfos := mapSet w.h.remoteInfos ski info } }
  | some info =>
    let info := { info with Device := some device }
    let found := info.UseCases.contains uc
    if !found then
      let info := { info with UseCases := info.UseCases ++ [uc] }
      some { w with h := { w.h with remoteInfos := mapSet w.h.remoteInfos ski info } }
    else
      some w

/-- The `UseCaseInfo` of one element of `device.UseCases()`: `*uc.Actor` and each
`*ucs.UseCaseName` are dereferenced, which panics for a nil pointer. -/
def useCaseInfoOf (uc : UseCaseInformation) : Option UseCaseInfo :=
  match uc.Actor, derefAll id uc.UseCaseSupport with
  | some actor, some names => some { Actor := actor, Names := names }
  | _, _ => none

/-- The result is `none` when a dereference of `*uc.Actor` or `*ucs.UseCaseName` panics. -/
def updateUseCaseInfos (ski : String) (device : Device) (w : World) : Option World :=
  match derefAll useCaseInfoOf device.UseCases with
  | some info =>
    some { w with h := { w.h with useCaseInfos := mapSet w.h.useCaseInfos ski info } }
  | none => none

/-! ### Outbound writes

Both branches of `if err != nil` only print; the trace keeps the call and the answer. -/

def sendConsumptionLimit (env : Env) (entity : Entity) (w : World) : World :=
  let result := env.uclpc.WriteConsumptionLimit entity w.h.consumptionLimits
  { w with out := w.out ++
      [Effect.write (.uclpcWriteConsumptionLimit entity w.h.consumptionLimits) result] }

def sendConsumptionFailsafeLimit (env : Env) (entity : Entity) (w : World) : World :=
  let result :=
    env.uclpc.WriteFailsafeConsumptionActivePowerLimit entity w.h.consumptionFailsafeLimits.Value
  { w with out := w.out ++
      [Effect.write (.uclpcWriteFailsafeConsumptionActivePowerLimit entity
        w.h.consumptionFailsafeLimits.Value) result] }

def sendConsumptionFailsafeDuration (env : Env) (entity : Entity) (w : World) : World :=
  let result :=
    env.uclpc.WriteFailsafeDurationMinimum entity w.h.consumptionFailsafeLimits.Duration
  { w with out := w.out ++
      [Effect.write (.uclpcWriteFailsafeDurationMinimum entity
        w.h.consumptionFailsafeLimits.Duration) result] }

def sendProductionLimit (env : Env) (entity : Entity) (w : World) : World :=
  let result := env.uclpp.WriteProductionLimit entity w.h.productionLimits
  { w with out := w.out ++
      [Effect.write (.uclppWriteProductionLimit entity w.h.productionLimits) result] }

def sendProductionFailsafeLimit (env : Env) (entity : Entity) (w : World) : World :=
  let result :=
    env.uclpp.WriteFailsafeProductionActivePowerLimit entity w.h.productionFailsafeLimits.Value
  { w with out := w.out ++
      [Effect.write (.uclppWriteFailsafeProductionActivePowerLimit entity
        w.h.productionFailsafeLimits.Value) result] }

def sendProductionFailsafeDuration (env : Env) (entity : Entity) (w : World) : World :=
  let result :=
    env.uclpp.WriteFailsafeDurationMinimum entity w.h.productionFailsafeLimits.Duration
  { w with out := w.out ++
      [Effect.write (.uclppWriteFailsafeDurationMinimum entity
        w.h.productionFailsafeLimits.Duration) result] }

/-! ## `frontend.go`: `readData` and `sendData` -/

/-- The limit as sent to the UI: the duration in whole seconds. -/
def wireLimit (l : LoadLimit) : LoadLimit :=
  { IsActive := l.IsActive, Duration := divDuration l.Duration Second, Value := l.Value }

/-- The use cases of `h.remoteInfos[ski]`, empty for a missing key. -/
def useCasesOf (w : World) (ski : String) : List String :=
  match mapGet w.h.remoteInfos ski with
  | some info => info.UseCases
  | none => []

/-- Test `ucs == nil || slices.Contains(ucs, uc)`; `none` is the nil slice. -/
def wants (ucs : Option (List String)) (uc : String) : Bool :=
  match ucs with
  | none => true
  | some l => l.contains uc

/-- The `"LPC"` block of `readData`. -/
def readDataLPC (env : Env) (entity : Entity) (ski : String) (w : World) : World :=
  let w := match env.uclpc.ConsumptionLimit entity with
    | some currentLimit =>
      sendLimit ski GetConsumptionLimit "LPC" (wireLimit currentLimit)
        { w with h := { w.h with consumptionLimits := currentLimit } }
    | none => w
  let w := match env.uclpc.FailsafeConsumptionActivePowerLimit entity with
    | some limit =>
      sendValue ski GetConsumptionFailsafeValue "LPC" limit
        { w with h := { w.h with
            consumptionFailsafeLimits := { w.h.consumptionFailsafeLimits with Value := limit } } }
    | none => w
  let w := match env.uclpc.FailsafeDurationMinimum entity with
    | some duration =>
      sendValue ski GetConsumptionFailsafeDuration "LPC" (float64 (divDuration duration Second))
        { w with h := { w.h with
            consumptionFailsafeLimits :=
              { w.h.consumptionFailsafeLimits with Duration := duration } } }
    | none => w
  match env.uclpc.ConsumptionNominalMax entity with
  | some nominal =>
    sendValue ski GetConsumptionNominalMax "LPC" nominal
      { w with h := { w.h with consumptionNominalMax := nominal } }
  | none => w

/-- The `"LPP"` block of `readData`. -/
def readDataLPP (env : Env) (entity : Entity) (ski : String) (w : World) : World :=
  let w := match env.uclpp.ProductionLimit entity with
    | some currentLimit =>
      sendLimit ski GetProductionLimit "LPP" (wireLimit currentLimit)
        { w with h := { w.h with productionLimits := currentLimit } }
    | none => w
  let w := match env.uclpp.FailsafeProductionActivePowerLimit entity with
    | some limit =>
      sendValue ski GetProductionFailsafeValue "LPP" limit
        { w with h := { w.h with
            productionFailsafeLimits := { w.h.productionFailsafeLimits with Value := limit } } }
    | none => w
  let w := match env.uclpp.FailsafeDurationMinimum entity with
    | some duration =>
      sendValue ski GetProductionFailsafeDuration "LPP" (float64 (divDuration duration Second))
        { w with h := { w.h with
            productionFailsafeLimits :=
              { w.h.productionFailsafeLimits with Duration := duration } } }
    | none => w
  match env.uclpp.ProductionNominalMax entity with
  | some nominal =>
    sendValue ski GetProductionNominalMax "LPP" nominal
      { w with h := { w.h with productionNominalMax := nominal } }
  | none => w

def readData (env : Env) (entity : Entity) (ucs : Option (List String)) (w : World) : World :=
  let ski := entity.DeviceSki
  let w :=
    if wants ucs "LPC" && (useCasesOf w ski).contains "LPC" then readDataLPC env entity ski w
    else w
  if wants ucs "LPP" && (useCasesOf w ski).contains "LPP" then readDataLPP env entity ski w
  else w

def sendData (ski : String) (uc : String) (w : World) : World :=
  if uc = "" then
    sendText QRCode "" w
  else if uc = "LPC" then
    let w := sendLimit ski GetConsumptionLimit "LPC" (wireLimit w.h.consumptionLimits) w
    let w := sendValue ski GetConsumptionFailsafeValue "LPC" w.h.consumptionFailsafeLimits.Value w
    sendValue ski GetConsumptionFailsafeDuration "LPC"
      (float64 (divDuration w.h.consumptionFailsafeLimits.Duration Second)) w
  else if uc = "LPP" then
    let w := sendLimit ski GetProductionLimit "LPP" (wireLimit w.h.productionLimits) w
    let w := sendValue ski GetProductionFailsafeValue "LPP" w.h.productionFailsafeLimits.Value w
    sendValue ski GetProductionFailsafeDuration "LPP"
      (float64 (divDuration w.h.productionFailsafeLimits.Duration Second)) w
  else
    w

/-! ## `controlbox.go`: use case event handlers -/

def OnLPCEvent (env : Env) (ski : String) (device : Device) (entity : Entity)
    (event : LPCEvent) (w : World) : Option World :=
  match mapGet w.h.isConnected ski with
  | some true =>
    match updateEntityInfos ski device "LPC" w with
    | none => none
    | some w =>
    match sendEntityInfo env.rangeOrder GetEntityInfos w.h.remoteInfos w with
    | none => none
    | some w =>
    match updateUseCaseInfos ski device w with
    | none => none
    | some w =>
      let w := sendUseCaseInfo GetUseCaseInfos w.h.useCaseInfos w
      match event with
      | .UseCaseSupportUpdate => some (readData env entity (some ["LPC"]) w)
      | .DataUpdateLimit =>
        match env.uclpc.ConsumptionLimit entity with
        | some currentLimit =>
          if ski = w.remoteSki then
            some (sendLimit ski GetConsumptionLimit "LPC" (wireLimit currentLimit)
              { w with h := { w.h with consumptionLimits := currentLimit } })
          else some w
        | none => some w
      | .DataUpdateFailsafeConsumptionActivePowerLimit =>
        match env.uclpc.FailsafeConsumptionActivePowerLimit entity with
        | some limit =>
          if ski = w.remoteSki then
            some (sendValue ski GetConsumptionFailsafeValue "LPC" limit
              { w with h := { w.h with
                  consumptionFailsafeLimits :=
                    { w.h.consumptionFailsafeLimits with Value := limit } } })
          else some w
        | none => some w
      | .DataUpdateFailsafeDurationMinimum =>
        match env.uclpc.FailsafeDurationMinimum entity with
        | some duration =>
          if ski = w.remoteSki then
            some (sendValue ski GetConsumptionFailsafeDuration "LPC"
              (float64 (divDuration duration Second))
              { w with h := { w.h with
                  consumptionFailsafeLimits :=
                    { w.h.consumptionFailsafeLimits with Duration := duration } } })
          else some w
        | none => some w
      | .other => some w
  | _ => some w

def OnLPPEvent (env : Env) (ski : String) (device : Device) (entity : Entity)
    (event : LPPEvent) (w : World) : Option World :=
  match mapGet w.h.isConnected ski with
  | some true =>
    match updateEntityInfos ski device "LPP" w with
    | none => none
    | some w =>
    match sendEntityInfo env.rangeOrder GetEntityInfos w.h.remoteInfos w with
    | none => none
    | some w =>
    match updateUseCaseInfos ski device w with
    | none => none
    | some w =>
      let w := sendUseCaseInfo GetUseCaseInfos w.h.useCaseInfos w
      match event with
      | .UseCaseSupportUpdate => some (readData env entity (some ["LPP"]) w)
      | .DataUpdateLimit =>
        match env.uclpp.ProductionLimit entity with
        | some currentLimit =>
          if ski = w.remoteSki then
            some (sendLimit ski GetProductionLimit "LPP" (wireLimit currentLimit)
              { w with h := { w.h with productionLimits := currentLimit } })
          else some w
        | none => some w
      | .DataUpdateFailsafeProductionActivePowerLimit =>
        match env.uclpp.FailsafeProductionActivePowerLimit entity with
        | some limit =>
          if ski = w.remoteSki then
            some (sendValue ski GetProductionFailsafeValue "LPP" limit
              { w with h := { w.h with
                  productionFailsafeLimits :=
                    { w.h.productionFailsafeLimits with Value := limit } } })
          else some w
        | none => some w
      | .DataUpdateFailsafeDurationMinimum =>
        match env.uclpp.FailsafeDurationMinimum entity with
        | some duration =>
          if ski = w.remoteSki then
            some (sendValue ski GetProductionFailsafeDuration "LPP"
              (float64 (divDuration duration Second))
              { w with h := { w.h with
                  productionFailsafeLimits :=
                    { w.h.productionFailsafeLimits with Duration := duration } } })
          else some w
        | none => some w
      | .other => some w
  | _ => some w

/-- `if v, err := read; err == nil { send v }` of the measurement handlers. -/
def onRead {α : Type} (r : Option α) (send : α → World → World) (w : World) : World :=
  match r with
  | some v => send v w
  | none => w

def OnMGCPEvent (env : Env) (ski : String) (device : Device) (entity : Entity)
    (event : MGCPEvent) (w : World) : Option World :=
  match mapGet w.h.isConnected ski with
  | some true =>
    match updateEntityInfos ski device "MGCP" w with
    | none => none
    | some w =>
    match sendEntityInfo env.rangeOrder GetEntityInfos w.h.remoteInfos w with
    | none => none
    | some w =>
    match updateUseCaseInfos ski device w with
    | none => none
    | some w =>
      let w := sendUseCaseInfo GetUseCaseInfos w.h.useCaseInfos w
      match event with
      | .UseCaseSupportUpdate => some (readData env entity (some ["MGCP"]) w)
      | .DataUpdatePowerLimitationFactor =>
        some (onRead (env.ucmgcp.PowerLimitationFactor entity)
          (sendValue ski GetPowerLimitationFactor "MGCP") w)
      | .DataUpdatePower =>
        some (onRead (env.ucmgcp.Power entity) (sendValue ski GetPower "MGCP") w)
      | .DataUpdateEnergyFeedIn =>
        some (onRead (env.ucmgcp.EnergyFeedIn entity) (sendValue ski GetEnergyFeedIn "MGCP") w)
      | .DataUpdateEnergyConsumed =>
        some (onRead (env.ucmgcp.EnergyConsumed entity)
          (sendValue ski GetEnergyConsumed "MGCP") w)
      | .DataUpdateCurrentPerPhase =>
        some (onRead (env.ucmgcp.CurrentPerPhase entity)
          (sendValueArr ski GetCurrentPerPhase "MGCP") w)
      | .DataUpdateVoltagePerPhase =>
        some (onRead (env.ucmgcp.VoltagePerPhase entity)
          (sendValueArr ski GetVoltagePerPhase "MGCP") w)
      | .DataUpdateFrequency =>
        some (onRead (env.ucmgcp.Frequency entity) (sendValue ski GetFrequency "MGCP") w)
      | .other => some w
  | _ => some w

def OnMPCEvent (env : Env) (ski : String) (device : Device) (entity : Entity)
    (event : MPCEvent) (w : World) : Option World :=
  match mapGet w.h.isConnected ski with
  | some true =>
    match updateEntityInfos ski device "MPC" w with
    | none => none
    | some w =>
    match sendEntityInfo env.rangeOrder GetEntityInfos w.h.remoteInfos w with
    | none => none
    | some w =>
    match updateUseCaseInfos ski device w with
    | none => none
    | some w =>
      let w := sendUseCaseInfo GetUseCaseInfos w.h.useCaseInfos w
      match event with
      | .UseCaseSupportUpdate => some (readData env entity (some ["MPC"]) w)
      | .DataUpdatePower =>
        some (onRead (env.ucmpc.Power entity) (sendValue ski GetPower "MPC") w)
      | .DataUpdatePowerPerPhase =>
        some (onRead (env.ucmpc.PowerPerPhase entity)
          (sendValueArr ski GetPowerPerPhase "MPC") w)
      | .DataUpdateEnergyConsumed =>
        some (onRead (env.ucmpc.EnergyConsumed entity)
          (sendValue ski GetEnergyConsumed "MPC") w)
      | .DataUpdateEnergyProduced =>
        some (onRead (env.ucmpc.EnergyProduced entity) (sendValue ski GetEnergyFeedIn "MPC") w)
      | .DataUpdateCurrentsPerPhase =>
        some (onRead (env.ucmpc.CurrentPerPhase entity)
          (sendValueArr ski GetCurrentPerPhase "MPC") w)
      | .DataUpdateVoltagePerPhase =>
        some (onRead (env.ucmpc.VoltagePerPhase entity)
          (sendValueArr ski GetVoltagePerPhase "MPC") w)
      | .DataUpdateFrequency =>
        some (onRead (env.ucmpc.Frequency entity) (sendValue ski GetFrequency "MPC") w)
      | .other => some w
  | _ => some w

/-! ## `frontend.go`: the command loop -/

/-- One frame read from the websocket: `data` is the `Message` left by
`json.Unmarshal` and `err` tells whether it returned an error, which `reader`
does not look at. -/
structure Frame where
  data : Message
  err : Bool
  deriving DecidableEq

/-- Case `SelectService` of `reader`. -/
def caseSelectService (env : Env) (data : Message) (w : World) : World :=
  let w := { w with remoteSki := data.Text }
  match mapGet w.h.remoteInfos w.remoteSki with
  | none =>
    match mapGet w.h.isConnected w.remoteSki with
    | some true => w
    | _ => { w with out := w.out ++ [Effect.RegisterRemoteSKI w.remoteSki] }
  | some info =>
    match info.Device with
    | some device => device.Entities.foldl (fun w entity => readData env entity none w) w
    | none => w

/-- Case `SetConsumptionLimit` of `reader`. -/
def caseSetConsumptionLimit (env : Env) (data : Message) (w : World) : World :=
  let limit := data.Limit
  let w := { w with h := { w.h with consumptionLimits :=
    { w.h.consumptionLimits with IsActive := limit.IsActive } } }
  let w := { w with h := { w.h with consumptionLimits :=
    { w.h.consumptionLimits with Value := limit.Value } } }
  let w := { w with h := { w.h with consumptionLimits :=
    { w.h.consumptionLimits with Duration := mulDuration limit.Duration Second } } }
  env.uclpc.RemoteEntitiesScenarios.foldl
    (fun w remoteEntityScenario => sendConsumptionLimit env remoteEntityScenario.Entity w) w

/-- Case `SetProductionLimit` of `reader`. -/
def caseSetProductionLimit (env : Env) (data : Message) (w : World) : World :=
  let limit := data.Limit
  let w := { w with h := { w.h with productionLimits :=
    { w.h.productionLimits with IsActive := limit.IsActive } } }
  let w := { w with h := { w.h with productionLimits :=
    { w.h.productionLimits with Value := limit.Value } } }
  let w := { w with h := { w.h with productionLimits :=
    { w.h.productionLimits with Duration := mulDuration limit.Duration Second } } }
  env.uclpp.RemoteEntitiesScenarios.foldl
    (fun w remoteEntityScenario => sendProductionLimit env remoteEntityScenario.Entity w) w

/-- Case `SetConsumptionFailsafeValue` of `reader`. -/
def caseSetConsumptionFailsafeValue (env : Env) (data : Message) (w : World) : World :=
  let limit := data.Value
  let w := { w with h := { w.h with consumptionFailsafeLimits :=
    { w.h.consumptionFailsafeLimits with Value := limit } } }
  env.uclpc.RemoteEntitiesScenarios.foldl
    (fun w remoteEntityScenario =>
      sendConsumptionFailsafeLimit env remoteEntityScenario.Entity w) w

/-- Case `SetConsumptionFailsafeDuration` of `reader`. -/
def caseSetConsumptionFailsafeDuration (env : Env) (data : Message) (w : World) : World :=
  let limit := data.Value
  let w := { w with h := { w.h with consumptionFailsafeLimits :=
    { w.h.consumptionFailsafeLimits with
      Duration := mulDuration (toDuration limit) Second } } }
  env.uclpc.RemoteEntitiesScenarios.foldl
    (fun w remoteEntityScenario =>
      sendConsumptionFailsafeDuration env remoteEntityScenario.Entity w) w

/-- Case `SetProductionFailsafeValue` of `reader`. -/
def caseSetProductionFailsafeValue (env : Env) (data : Message) (w : World) : World :=
  let limit := data.Value
  let w := { w with h := { w.h with productionFailsafeLimits :=
    { w.h.productionFailsafeLimits with Value := limit } } }
  env.uclpp.RemoteEntitiesScenarios.foldl
    (fun w remoteEntityScenario =>
      sendProductionFailsafeLimit env remoteEntityScenario.Entity w) w

/-- Case `SetProductionFailsafeDuration` of `reader`. -/
def caseSetProductionFailsafeDuration (env : Env) (data : Message) (w : World) : World :=
  let limit := data.Value
  let w := { w with h := { w.h with productionFailsafeLimits :=
    { w.h.productionFailsafeLimits with
      Duration := mulDuration (toDuration limit) Second } } }
  env.uclpp.RemoteEntitiesScenarios.foldl
    (fun w remoteEntityScenario =>
      sendProductionFailsafeDuration env remoteEntityScenario.Entity w) w

/-- The `switch data.Type` of `reader`; a `Type` without a case does nothing.
The tests `nil != h.remoteInfos` of the cases `GetEntityInfos` and
`GetUseCaseInfos` hold, the map being allocated by `run()`. The result is
`none` when `sendEntityInfo` panics. -/
def dispatch (env : Env) (data : Message) (w : World) : Option World :=
  if data.Type_ = GetServiceList then
    some (sendServiceList GetServiceList w.h.currentRemoteServices w)
  else if data.Type_ = SelectService then
    some (caseSelectService env data w)
  else if data.Type_ = GetEntityInfos then
    sendEntityInfo env.rangeOrder GetEntityInfos w.h.remoteInfos w
  else if data.Type_ = GetUseCaseInfos then
    some (sendUseCaseInfo GetUseCaseInfos w.h.useCaseInfos w)
  else if data.Type_ = GetAllData then
    some (sendData data.SKI data.Text w)
  else if data.Type_ = SetConsumptionLimit then
    some (caseSetConsumptionLimit env data w)
  else if data.Type_ = SetProductionLimit then
    some (caseSetProductionLimit env data w)
  else if data.Type_ = SetConsumptionFailsafeValue then
    some (caseSetConsumptionFailsafeValue env data w)
  else if data.Type_ = SetConsumptionFailsafeDuration then
    some (caseSetConsumptionFailsafeDuration env data w)
  else if data.Type_ = SetProductionFailsafeValue then
    some (caseSetProductionFailsafeValue env data w)
  else if data.Type_ = SetProductionFailsafeDuration then
    some (caseSetProductionFailsafeDuration env data w)
  else
    some w

/-- One iteration of the loop of `reader` after `ws.ReadMessage` succeeded;
`none` when the `switch` panics. -/
def readerStep (env : Env) (frame : Frame) (w : World) : Option World :=
  let data := frame.data
  match dispatch env data w with
  | some w => some (sendNotification "" Acknowledge "" w)
  | none => none

/-! ## Runs -/

/-- One call into the core, with the collaborator answers in force during it. -/
inductive Op where
  | RemoteSKIConnected (ski : String)
  | RemoteSKIDisconnected (ski : String)
  | VisibleRemoteServicesUpdated (entries : List RemoteService)
  | OnLPCEvent (env : Env) (ski : String) (device : Device) (entity : Entity) (event : LPCEvent)
  | OnLPPEvent (env : Env) (ski : String) (device : Device) (entity : Entity) (event : LPPEvent)
  | OnMGCPEvent (env : Env) (ski : String) (device : Device) (entity : Entity)
      (event : MGCPEvent)
  | OnMPCEvent (env : Env) (ski : String) (device : Device) (entity : Entity) (event : MPCEvent)
  | reader (env : Env) (frame : Frame)

def step (op : Op) (w : World) : Option World :=
  match op with
  | .RemoteSKIConnected ski => some (RemoteSKIConnected ski w)
  | .RemoteSKIDisconnected ski => some (RemoteSKIDisconnected ski w)
  | .VisibleRemoteServicesUpdated entries => some (VisibleRemoteServicesUpdated entries w)
  | .OnLPCEvent env ski device entity event => OnLPCEvent env ski device entity event w
  | .OnLPPEvent env ski device entity event => OnLPPEvent env ski device entity event w
  | .OnMGCPEvent env ski device entity event => OnMGCPEvent env ski device entity event w
  | .OnMPCEvent env ski device entity event => OnMPCEvent env ski device entity event w
  | .reader env frame => readerStep env frame w

/-- The calls one after the other; `none` as soon as one of them panics. -/
def run (ops : List Op) (w : World) : Option World :=
  match ops with
  | [] => some w
  | op :: rest =>
    match step op w with
    | some w1 => run rest w1
    | none => none

/-! ## Observations -/

/-- The calls made on the way from `w` to `w1`. -/
def emitted (w w1 : World) : List Effect := w1.out.drop w.out.length

/-- The `Type` of each UI message among the calls, in order. -/
def uiTypes (es : List Effect) : List Int :=
  es.filterMap fun e =>
    match e with
    | .sendMessage msg => some msg.Type_
    | _ => none

/-- The device writes among the calls, in order. -/
def deviceWrites (es : List Effect) : List DeviceWrite :=
  es.filterMap fun e =>
    match e with
    | .write call _ => some call
    | _ => none

/-- The six `LimitState` fields agree. -/
def sameLimitState (a b : controlbox) : Prop :=
  a.consumptionLimits = b.consumptionLimits ∧
  a.productionLimits = b.productionLimits ∧
  a.consumptionFailsafeLimits = b.consumptionFailsafeLimits ∧
  a.productionFailsafeLimits = b.productionFailsafeLimits ∧
  a.consumptionNominalMax = b.consumptionNominalMax ∧
  a.productionNominalMax = b.productionNominalMax

instance (a b : controlbox) : Decidable (sameLimitState a b) := by
  unfold sameLimitState; infer_instance

/-- The events of `OnLPCEvent` that report a changed value. -/
def LPCEvent.valueChanged : LPCEvent → Bool
  | .DataUpdateLimit => true
  | .DataUpdateFailsafeConsumptionActivePowerLimit => true
  | .DataUpdateFailsafeDurationMinimum => true
  | _ => false

/-- The events of `OnLPPEvent` that report a changed value. -/
def LPPEvent.valueChanged : LPPEvent → Bool
  | .DataUpdateLimit => true
  | .DataUpdateFailsafeProductionActivePowerLimit => true
  | .DataUpdateFailsafeDurationMinimum => true
  | _ => false

/-- The identity is in `h.currentRemoteServices`. -/
def discovered (w : World) (ski : String) : Bool :=
  w.h.currentRemoteServices.any fun v => v.Ski == ski

/-- The identity has a session record or is in `h.currentRemoteServices`:
the condition under which `updateEntityInfos` does not panic. -/
def known (w : World) (ski : String) : Bool :=
  (mapGet w.h.remoteInfos ski).isSome || discovered w ski

/-- What `readData` and the send functions never touch. -/
def sameRegistry (w w1 : World) : Prop :=
  w1.h.isConnected = w.h.isConnected ∧ w1.h.remoteInfos = w.h.remoteInfos ∧
  w1.h.useCaseInfos = w.h.useCaseInfos ∧
  w1.h.currentRemoteServices = w.h.currentRemoteServices ∧ w1.remoteSki = w.remoteSki

/-- The four registry fields agree. -/
def sameMaps (w w1 : World) : Prop :=
  w1.h.isConnected = w.h.isConnected ∧ w1.h.remoteInfos = w.h.remoteInfos ∧
  w1.h.useCaseInfos = w.h.useCaseInfos ∧
  w1.h.currentRemoteServices = w.h.currentRemoteServices

/-- The session record of `id` exists and lists `tag`. -/
def hasUseCase (w : World) (id tag : String) : Prop :=
  ∃ info, mapGet w.h.remoteInfos id = some info ∧ tag ∈ info.UseCases

/-- The acknowledge sent at the end of each iteration of `reader`. -/
def acknowledge : Message := { SKI := "", Type_ := Acknowledge, UseCase := "" }

/-- The call is not an `Acknowledge` message. -/
def notAcknowledge (e : Effect) : Prop := ∀ m, e = Effect.sendMessage m → m.Type_ ≠ Acknowledge

/-- The trace of `w1` is the trace of `w` followed by calls that all satisfy `P`. -/
def extendsBy (P : Effect → Prop) (w w1 : World) : Prop :=
  ∃ es, w1.out = w.out ++ es ∧ ∀ e ∈ es, P e

/-- The limit the cases `SetConsumptionLimit` and `SetProductionLimit` store for
a message: its `IsActive`, its `Value` and `limit.Duration * time.Second` in
the arithmetic of Go. -/
def commandedLimit (data : Message) : LoadLimit :=
  ⟨mulDuration data.Limit.Duration Second, data.Limit.IsActive, data.Limit.Value⟩

/-- The duration the failsafe duration cases store for a message:
`time.Duration(Value) * time.Second` in the arithmetic of Go. -/
def commandedDuration (data : Message) : Duration :=
  mulDuration (toDuration data.Value) Second

/-- Following the specification: `n` seconds as a duration, the exact number of
nanoseconds. -/
def seconds (n : Int) : Int := n * 1000000000

/-- Every session record can be shown: its device is nil, has no entity or
reports a device type, so that no `*device.DeviceType()` of `sendEntityInfo` panics. -/
def printable (remoteInfos : List (String × RemoteInfo)) : Bool :=
  remoteInfos.all fun kv =>
    match kv.2.Device with
    | some device => device.Entities.isEmpty || device.DeviceType.isSome
    | none => true

/-- The device handle can be shown and projected: it has no entity or reports a
device type, and every element of `device.UseCases()` carries its actor and
the name of every supported use case. -/
def presentable (device : Device) : Bool :=
  (device.Entities.isEmpty || device.DeviceType.isSome) &&
  device.UseCases.all fun uc => uc.Actor.isSome && uc.UseCaseSupport.all Option.isSome

/-! ## Sample data -/

def entityA : Entity := ⟨"1", "CEM", [⟨"LoadControl", "server"⟩], "ski-A"⟩

def entityB : Entity := ⟨"1", "CEM", [], "ski-B"⟩

/-- A limit-control collaborator with two registered entities whose reads all
succeed, whose writes to `ski-A` fail and whose writes to `ski-B` succeed. -/
def sampleLPC : EgLPC :=
  { ConsumptionLimit := fun _ => some ⟨60000000000, true, 1000⟩
    FailsafeConsumptionActivePowerLimit := fun _ => some 4200
    FailsafeDurationMinimum := fun _ => some 7200000000000
    ConsumptionNominalMax := fun _ => some 11000
    RemoteEntitiesScenarios := [⟨entityA, [1]⟩, ⟨entityB, [1]⟩]
    WriteConsumptionLimit := fun e _ => if e.DeviceSki = "ski-A" then none else some 7
    WriteFailsafeConsumptionActivePowerLimit :=
      fun e _ => if e.DeviceSki = "ski-A" then none else some 8
    WriteFailsafeDurationMinimum := fun e _ => if e.DeviceSki = "ski-A" then none else some 9 }

def sampleLPP : EgLPP :=
  { ProductionLimit := fun _ => some ⟨30000000000, true, 500⟩
    FailsafeProductionActivePowerLimit := fun _ => some 100
    FailsafeDurationMinimum := fun _ => some 7200000000000
    ProductionNominalMax := fun _ => some 8000
    RemoteEntitiesScenarios := [⟨entityB, [1]⟩]
    WriteProductionLimit := fun _ _ => none
    WriteFailsafeProductionActivePowerLimit := fun _ _ => none
    WriteFailsafeDurationMinimum := fun _ _ => none }

def sampleMGCP : MaMGCP :=
  ⟨fun _ => some 1, fun _ => some 230, fun _ => none, fun _ => none,
   fun _ => some [1, 2, 3], fun _ => none, fun _ => some 50⟩

def sampleMPC : MaMPC :=
  ⟨fun _ => some 230, fun _ => none, fun _ => none, fun _ => none,
   fun _ => some [1, 2, 3], fun _ => none, fun _ => some 50⟩

/-- The sample collaborators; the maps are visited in the order of their lists. -/
def sampleEnv : Env :=
  ⟨sampleLPC, sampleLPP, sampleMGCP, sampleMPC, fun m => ⟨m, List.Perm.refl m⟩⟩

def deviceA : Device :=
  ⟨"ski-A", some "EnergyManagementSystem", [entityA],
    [⟨some "CEM", [some "limitationOfPowerConsumption"]⟩]⟩

/-- The device of `ski-A` before it has announced a device type:
`device.DeviceType()` is nil. -/
def deviceNoType : Device :=
  ⟨"ski-A", none, [entityA], [⟨some "CEM", [some "limitationOfPowerConsumption"]⟩]⟩

/-- The state at startup: empty maps and zero limits. -/
def initial : World :=
  { h :=
      { isConnected := [], remoteInfos := [], useCaseInfos := []
        consumptionLimits := ⟨0, false, 0⟩, productionLimits := ⟨0, false, 0⟩
        consumptionFailsafeLimits := ⟨0, 0⟩, productionFailsafeLimits := ⟨0, 0⟩
        consumptionNominalMax := 0, productionNominalMax := 0
        currentRemoteServices := [] }
    remoteSki := ""
    out := [] }

/-- Services `ski-A` and `ski-B` discovered, `ski-A` connected, then `ski-B`
connected: the active target is `ski-B`. -/
def twoDevices : World :=
  RemoteSKIConnected "ski-B" (RemoteSKIConnected "ski-A"
    (VisibleRemoteServicesUpdated [⟨"ski-A", "a"⟩, ⟨"ski-B", "b"⟩] initial))

/-- As `twoDevices`, after `ski-B` disconnected. -/
def oneOffline : World := RemoteSKIDisconnected "ski-B" twoDevices

/-- As `twoDevices`, after the LPC capability event of `ski-A`. -/
def withRecordA : World :=
  (OnLPCEvent sampleEnv "ski-A" deviceA entityA .UseCaseSupportUpdate twoDevices).getD twoDevices

/-- A disconnect and reconnect of `ski-A` with events and a command in between. -/
def sampleOps : List Op :=
  [.RemoteSKIDisconnected "ski-A",
   .OnLPPEvent sampleEnv "ski-A" deviceA entityA .DataUpdateLimit,
   .RemoteSKIConnected "ski-A",
   .OnLPPEvent sampleEnv "ski-A" deviceA entityA .UseCaseSupportUpdate,
   .reader sampleEnv ⟨{ Type_ := SelectService, Text := "ski-B" }, false⟩,
   .OnLPCEvent sampleEnv "ski-A" deviceA entityA .DataUpdateLimit]

/-- The state `sampleOps` leads to from `withRecordA`. -/
def afterCycle : World := (run sampleOps withRecordA).getD initial

/-- As `twoDevices`, after the command `SetConsumptionFailsafeValue(1500)`. -/
def withFailsafe : World :=
  (readerStep sampleEnv ⟨{ Type_ := SetConsumptionFailsafeValue, Value := 1500 }, false⟩
    twoDevices).getD twoDevices

/-- What `json.Unmarshal` leaves for a payload that is not JSON: the zero
`Message` and an error. -/
def frameNotJSON : Frame := ⟨{}, true⟩

/-- What `json.Unmarshal` leaves for the payload `{"Type":13,"Value":"abc"}`: the
field `Type` decoded, `Value` skipped, and an error. -/
def frameTypeError : Frame := ⟨{ Type_ := SetConsumptionFailsafeValue }, true⟩

/-- As `twoDevices`, after `ski-X`, which is in no discovery list, connected. -/
def undiscoveredConnected : World := RemoteSKIConnected "ski-X" twoDevices

def entityX : Entity := ⟨"1", "CEM", [], "ski-X"⟩

def deviceX : Device := ⟨"ski-X", some "EnergyManagementSystem", [entityX], []⟩

/-- The device of `ski-A` as handed over after a reconnect: a second entity appeared. -/
def deviceA2 : Device :=
  ⟨"ski-A", some "EnergyManagementSystem", [entityA, ⟨"2", "HeatPump", [], "ski-A"⟩],
    [⟨some "CEM", [some "limitationOfPowerConsumption"]⟩]⟩

/-- The call is not one of the two summary messages. -/
def notSummary (e : Effect) : Prop :=
  ∀ m, e = Effect.sendMessage m → m.Type_ ≠ GetEntityInfos ∧ m.Type_ ≠ GetUseCaseInfos

/-- Following the specification: on the way from `w` to `w1` the registry was
updated first (the record of `ski` lists the tag `uc` and the use case summary
of `ski` is the projection of the device), then exactly one `GetEntityInfos`
and one `GetUseCaseInfos` message were sent, in that order and carrying the
updated registry (the rows in the order of the visit of the map), and every
later call is another kind of call. -/
def summariesFirst (env : Env) (uc ski : String) (device : Device) (w w1 : World) : Prop :=
  hasUseCase w1 ski uc ∧
  mapGet w1.h.useCaseInfos ski = derefAll useCaseInfoOf device.UseCases ∧
  ∃ rows rest, entityInfoRows (env.rangeOrder w1.h.remoteInfos).val = some rows ∧
    w1.out = w.out ++
      [Effect.sendMessage { Type_ := GetEntityInfos, EntityInfos := rows },
       Effect.sendMessage { Type_ := GetUseCaseInfos, UseCaseInfos := w1.h.useCaseInfos }] ++ rest ∧
    ∀ e ∈ rest, notSummary e

/-- The call is `RemoteSKIConnected(ski)`. -/
def Op.connects (op : Op) (ski : String) : Prop :=
  match op with
  | .RemoteSKIConnected s => s = ski
  | _ => False

/-- The call `RemoteSKIConnected(ski)` occurs in the sequence of calls. -/
def everConnected (ops : List Op) (ski : String) : Prop :=
  ∃ op ∈ ops, op.connects ski

/-- Every identity with a session record or with the connection flag `true`
is among the identities `seen`. -/
def tracked (seen : String → Prop) (w : World) : Prop :=
  ∀ ski, ((mapGet w.h.remoteInfos ski).isSome = true ∨
      mapGet w.h.isConnected ski = some true) → seen ski

/-- From startup: a discovery broadcast, the connection of `ski-A` and its
first LPC event. -/
def sampleHistory : List Op :=
  [.VisibleRemoteServicesUpdated [⟨"ski-A", "a"⟩, ⟨"ski-B", "b"⟩],
   .RemoteSKIConnected "ski-A",
   .OnLPCEvent sampleEnv "ski-A" deviceA entityA .UseCaseSupportUpdate]

/-- The state `sampleHistory` leads to from `initial`. -/
def afterHistory : World := (run sampleHistory initial).getD initial

/-- The part of an event handler between the registry update and the `switch`:
the entity summary, the projection of the use cases of the device and the
use case summary; `none` when one of the two dereferencing steps panics. -/
def summaries (env : Env) (ski : String) (device : Device) (w : World) : Option World :=
  match sendEntityInfo env.rangeOrder GetEntityInfos w.h.remoteInfos w with
  | none => none
  | some w =>
    match updateUseCaseInfos ski device w with
    | none => none
    | some w => some (sendUseCaseInfo GetUseCaseInfos w.h.useCaseInfos w)

/-- The control flow that the four event handlers share, as a property of the
result of a handler for the tag `uc`: a closed gate returns the state as it
is; a panic of the registry update or of the summaries is a panic of the
handler; otherwise the handler returns a state that differs from the state
after the summaries by calls other than summaries and by the limit state. -/
def handlerFlow (env : Env) (uc ski : String) (device : Device) (w : World)
    (result : Option World) : Prop :=
  (mapGet w.h.isConnected ski ≠ some true → result = some w) ∧
  (mapGet w.h.isConnected ski = some true →
    updateEntityInfos ski device uc w = none → result = none) ∧
  (∀ w0, mapGet w.h.isConnected ski = some true →
    updateEntityInfos ski device uc w = some w0 →
    summaries env ski device w0 = none → result = none) ∧
  (∀ w0 ws, mapGet w.h.isConnected ski = some true →
    updateEntityInfos ski device uc w = some w0 →
    summaries env ski device w0 = some ws →
    ∃ w1, result = some w1 ∧ extendsBy notSummary ws w1 ∧ sameRegistry ws w1)

/-! ## Lemmas on maps -/

theorem mapGet_mapSet_same {V : Type} (m : List (String × V)) (k : String) (v : V) :
    mapGet (mapSet m k v) k = some v := by
  induction m with
  | nil => simp [mapSet, mapGet]
  | cons kv rest ih =>
    obtain ⟨k1, v1⟩ := kv
    by_cases hk : k1 = k
    · simp [mapSet, mapGet, hk]
    · simp [mapSet, mapGet, hk, ih]

theorem mapGet_mapSet_other {V : Type} (m : List (String × V)) (k k2 : String) (v : V)
    (hne : k2 ≠ k) : mapGet (mapSet m k v) k2 = mapGet m k2 := by
  induction m with
  | nil => simp [mapSet, mapGet, Ne.symm hne]
  | cons kv rest ih =>
    obtain ⟨k1, v1⟩ := kv
    by_cases hk : k1 = k
    · subst hk
      simp [mapSet, mapGet, Ne.symm hne]
    · by_cases hk2 : k1 = k2
      · subst hk2
        simp [mapSet, mapGet, hk]
      · simp [mapSet, mapGet, hk, hk2, ih]

/-! ## Lemmas on the registry update -/

/-- A successful `updateEntityInfos` changes `h.remoteInfos` and nothing else. -/
theorem updateEntityInfos_frame {ski : String} {device : Device} {uc : String} {w w1 : World}
    (hup : updateEntityInfos ski device uc w = some w1) :
    ∃ infos, w1 = { w with h := { w.h with remoteInfos := infos } } := by
  unfold updateEntityInfos at hup
  split at hup
  · dsimp only at hup
    split at hup
    · simp at hup
    · simp only [Option.some.injEq] at hup
      exact ⟨_, hup.symm⟩
  · dsimp only at hup
    split at hup
    · simp only [Option.some.injEq] at hup
      exact ⟨_, hup.symm⟩
    · simp only [Option.some.injEq] at hup
      exact ⟨w.h.remoteInfos, by rw [← hup]⟩

/-- When some element satisfies `f`, indexing at `IndexFunc` succeeds. -/
theorem IndexFunc_of_any {α : Type} (s : List α) (f : α → Bool) (h : s.any f = true) :
    ∃ y, index s (IndexFunc s f) = some y := by
  have key : ∀ s : List α, s.any f = true →
      0 ≤ IndexFunc s f ∧ ∃ y, s.get? (IndexFunc s f).toNat = some y := by
    intro s
    induction s with
    | nil => simp
    | cons x rest ih =>
      intro hany
      by_cases hx : f x = true
      · simp [IndexFunc, hx]
      · have hrest : rest.any f = true := by simpa [hx] using hany
        obtain ⟨h0, y, hy⟩ := ih hrest
        rw [List.get?_eq_getElem?] at hy
        have hlt : ¬ IndexFunc rest f < 0 := not_lt.mpr h0
        have htn : (IndexFunc rest f + 1).toNat = (IndexFunc rest f).toNat + 1 := by omega
        refine ⟨?_, y, ?_⟩
        · simp only [IndexFunc, hx]; simp [hlt]; omega
        · simp only [IndexFunc, hx]; simp [hlt, htn, hy]
  obtain ⟨h0, y, hy⟩ := key s h
  rw [List.get?_eq_getElem?] at hy
  exact ⟨y, by simp [index, not_lt.mpr h0, hy]⟩

/-- For a known identity `updateEntityInfos` does not panic. -/
theorem updateEntityInfos_known {ski : String} (device : Device) (uc : String) {w : World}
    (hknown : known w ski = true) : ∃ w1, updateEntityInfos ski device uc w = some w1 := by
  unfold updateEntityInfos
  split
  · rename_i hnone
    have hd : discovered w ski = true := by simpa [known, hnone] using hknown
    obtain ⟨y, hy⟩ := IndexFunc_of_any w.h.currentRemoteServices (fun v => v.Ski == ski) hd
    dsimp only
    rw [hy]
    exact ⟨_, rfl⟩
  · dsimp only
    split
    · exact ⟨_, rfl⟩
    · exact ⟨_, rfl⟩

/-- The calls of a run whose trace grew by `es` are `es`. -/
theorem emitted_of_out {w w1 : World} {es : List Effect} (h : w1.out = w.out ++ es) :
    emitted w w1 = es := by
  simp [emitted, h]

/-! ## Frame lemmas: what the reads, sends and commands leave alone -/

theorem sameRegistry_refl (w : World) : sameRegistry w w := ⟨rfl, rfl, rfl, rfl, rfl⟩

theorem sameRegistry_trans {a b c : World} (h1 : sameRegistry a b) (h2 : sameRegistry b c) :
    sameRegistry a c := by
  obtain ⟨a1, a2, a3, a4, a5⟩ := h1
  obtain ⟨b1, b2, b3, b4, b5⟩ := h2
  exact ⟨b1.trans a1, b2.trans a2, b3.trans a3, b4.trans a4, b5.trans a5⟩

theorem readDataLPC_sameRegistry (env : Env) (entity : Entity) (ski : String) (w : World) :
    sameRegistry w (readDataLPC env entity ski w) := by
  unfold readDataLPC
  cases env.uclpc.ConsumptionLimit entity <;>
  cases env.uclpc.FailsafeConsumptionActivePowerLimit entity <;>
  cases env.uclpc.FailsafeDurationMinimum entity <;>
  cases env.uclpc.ConsumptionNominalMax entity <;>
  simp [sameRegistry, sendLimit, sendValue, sendMessage]

theorem readDataLPP_sameRegistry (env : Env) (entity : Entity) (ski : String) (w : World) :
    sameRegistry w (readDataLPP env entity ski w) := by
  unfold readDataLPP
  cases env.uclpp.ProductionLimit entity <;>
  cases env.uclpp.FailsafeProductionActivePowerLimit entity <;>
  cases env.uclpp.FailsafeDurationMinimum entity <;>
  cases env.uclpp.ProductionNominalMax entity <;>
  simp [sameRegistry, sendLimit, sendValue, sendMessage]

theorem readData_sameRegistry (env : Env) (entity : Entity) (ucs : Option (List String))
    (w : World) : sameRegistry w (readData env entity ucs w) := by
  unfold readData
  dsimp only
  split
  · split
    · exact sameRegistry_trans (readDataLPC_sameRegistry _ _ _ _) (readDataLPP_sameRegistry _ _ _ _)
    · exact readDataLPC_sameRegistry _ _ _ _
  · split
    · exact readDataLPP_sameRegistry _ _ _ _
    · exact sameRegistry_refl _

theorem foldl_sameRegistry {α : Type} (f : World → α → World)
    (hf : ∀ w a, sameRegistry w (f w a)) (l : List α) (w : World) :
    sameRegistry w (l.foldl f w) := by
  induction l generalizing w with
  | nil => exact sameRegistry_refl w
  | cons a rest ih => exact sameRegistry_trans (hf w a) (ih (f w a))

theorem sameRegistry.maps {w w1 : World} (h : sameRegistry w w1) : sameMaps w w1 :=
  ⟨h.1, h.2.1, h.2.2.1, h.2.2.2.1⟩

/-! ### Dereferences: when the summaries panic -/

theorem derefAll_isSome {α β : Type} (f : α → Option β) (l : List α) :
    (derefAll f l).isSome = l.all fun a => (f a).isSome := by
  induction l with
  | nil => rfl
  | cons a rest ih =>
    simp only [derefAll, List.all_cons]
    rw [← ih]
    cases f a <;> cases derefAll f rest <;> rfl

theorem entityInfosOf_isSome (info : RemoteInfo) :
    (entityInfosOf info).isSome =
      match info.Device with
      | some device => device.Entities.isEmpty || device.DeviceType.isSome
      | none => true := by
  unfold entityInfosOf
  cases info.Device with
  | none => rfl
  | some device =>
    simp only [derefAll_isSome]
    cases device.DeviceType with
    | none => cases device.Entities <;> simp
    | some t => cases device.Entities <;> simp

theorem entityInfoRows_isSome (l : List (String × RemoteInfo)) :
    (entityInfoRows l).isSome = printable l := by
  induction l with
  | nil => rfl
  | cons kv rest ih =>
    have hrow := entityInfosOf_isSome kv.2
    simp only [entityInfoRows, printable, List.all_cons] at ih ⊢
    rw [← ih, ← hrow]
    cases entityInfosOf kv.2 <;> cases entityInfoRows rest <;> rfl

theorem printable_perm {l m : List (String × RemoteInfo)} (h : l.Perm m) :
    printable l = printable m := by
  unfold printable
  rw [Bool.eq_iff_iff]
  simp only [List.all_eq_true]
  exact ⟨fun hl x hx => hl x (h.mem_iff.mpr hx), fun hm x hx => hm x (h.mem_iff.mp hx)⟩

theorem printable_mapSet {m : List (String × RemoteInfo)} (k : String) (info : RemoteInfo)
    (hm : printable m = true)
    (hinfo : (match info.Device with
      | some device => device.Entities.isEmpty || device.DeviceType.isSome
      | none => true) = true) : printable (mapSet m k info) = true := by
  induction m with
  | nil => simpa [mapSet, printable] using hinfo
  | cons kv rest ih =>
    obtain ⟨k1, v1⟩ := kv
    simp only [printable, List.all_cons, Bool.and_eq_true] at hm
    by_cases hk : k1 = k
    · simp only [mapSet, hk, if_true, printable, List.all_cons, Bool.and_eq_true]
      exact ⟨hinfo, hm.2⟩
    · simp only [mapSet, hk, if_false, printable, List.all_cons, Bool.and_eq_true]
      exact ⟨hm.1, ih hm.2⟩

/-- `sendEntityInfo` returns exactly when every record can be shown, and then
sends one message with the rows in the order of the visit. -/
theorem sendEntityInfo_eq_some
    (rangeOrder : (m : List (String × RemoteInfo)) → { l : List (String × RemoteInfo) // l.Perm m })
    (t : Int) (m : List (String × RemoteInfo)) (w : World) (hm : printable m = true) :
    ∃ rows, entityInfoRows (rangeOrder m).val = some rows ∧
      sendEntityInfo rangeOrder t m w
        = some (sendMessage { Type_ := t, EntityInfos := rows } w) := by
  have h : (entityInfoRows (rangeOrder m).val).isSome = true := by
    rw [entityInfoRows_isSome, printable_perm (rangeOrder m).property, hm]
  obtain ⟨rows, hrows⟩ := Option.isSome_iff_exists.mp h
  exact ⟨rows, hrows, by simp [sendEntityInfo, hrows]⟩

theorem sendEntityInfo_eq_none
    (rangeOrder : (m : List (String × RemoteInfo)) → { l : List (String × RemoteInfo) // l.Perm m })
    (t : Int) (m : List (String × RemoteInfo)) (w : World) (hm : printable m = false) :
    sendEntityInfo rangeOrder t m w = none := by
  have h : (entityInfoRows (rangeOrder m).val).isSome = false := by
    rw [entityInfoRows_isSome, printable_perm (rangeOrder m).property, hm]
  have hnone : entityInfoRows (rangeOrder m).val = none := by
    cases hr : entityInfoRows (rangeOrder m).val with
    | none => rfl
    | some rows => simp [hr] at h
  simp [sendEntityInfo, hnone]

theorem sendEntityInfo_of_some
    {rangeOrder : (m : List (String × RemoteInfo)) → { l : List (String × RemoteInfo) // l.Perm m }}
    {t : Int} {m : List (String × RemoteInfo)} {w w1 : World}
    (h : sendEntityInfo rangeOrder t m w = some w1) :
    printable m = true ∧ ∃ rows, entityInfoRows (rangeOrder m).val = some rows ∧
      w1 = sendMessage { Type_ := t, EntityInfos := rows } w := by
  cases hp : printable m with
  | false => rw [sendEntityInfo_eq_none rangeOrder t m w hp] at h; simp at h
  | true =>
    obtain ⟨rows, hrows, heq⟩ := sendEntityInfo_eq_some rangeOrder t m w hp
    rw [heq] at h
    simp only [Option.some.injEq] at h
    exact ⟨rfl, rows, hrows, h.symm⟩

theorem presentable_row {device : Device} (h : presentable device = true) :
    (device.Entities.isEmpty || device.DeviceType.isSome) = true := by
  simp only [presentable, Bool.and_eq_true] at h
  exact h.1

theorem useCaseInfoOf_isSome (uc : UseCaseInformation) :
    (useCaseInfoOf uc).isSome = (uc.Actor.isSome && uc.UseCaseSupport.all Option.isSome) := by
  have h := derefAll_isSome (fun x : Option String => x) uc.UseCaseSupport
  unfold useCaseInfoOf
  have hid : derefAll id uc.UseCaseSupport = derefAll (fun x : Option String => x) uc.UseCaseSupport :=
    rfl
  rw [hid]
  cases uc.Actor <;> cases hd : derefAll (fun x : Option String => x) uc.UseCaseSupport <;>
    simp [hd] at h ⊢ <;> simpa using h

theorem presentable_useCases {device : Device} (h : presentable device = true) :
    ∃ info, derefAll useCaseInfoOf device.UseCases = some info := by
  simp only [presentable, Bool.and_eq_true] at h
  have hs : (derefAll useCaseInfoOf device.UseCases).isSome = true := by
    rw [derefAll_isSome]
    have h2 := h.2
    simp only [List.all_eq_true] at h2 ⊢
    intro uc huc
    rw [useCaseInfoOf_isSome]
    exact h2 uc huc
  exact Option.isSome_iff_exists.mp hs

/-- A successful registry update with a device that can be shown keeps every
record showable. -/
theorem updateEntityInfos_printable {ski : String} {device : Device} {uc : String}
    {w w0 : World} (hup : updateEntityInfos ski device uc w = some w0)
    (hw : printable w.h.remoteInfos = true) (hdev : presentable device = true) :
    printable w0.h.remoteInfos = true := by
  have hrow := presentable_row hdev
  unfold updateEntityInfos at hup
  split at hup
  · dsimp only at hup
    split at hup
    · simp at hup
    · simp only [Option.some.injEq] at hup
      subst hup
      exact printable_mapSet _ _ hw hrow
  · dsimp only at hup
    split at hup
    · simp only [Option.some.injEq] at hup
      subst hup
      exact printable_mapSet _ _ hw hrow
    · simp only [Option.some.injEq] at hup
      subst hup
      exact hw

/-- The summaries in full: they return exactly when every record can be shown
and the use cases of the device can be projected, and then they send the two
summary messages and store the projection. -/
theorem summaries_eq_some (env : Env) (ski : String) (device : Device) (w : World)
    (hw : printable w.h.remoteInfos = true) (info : List UseCaseInfo)
    (hinfo : derefAll useCaseInfoOf device.UseCases = some info) :
    ∃ rows, entityInfoRows (env.rangeOrder w.h.remoteInfos).val = some rows ∧
      summaries env ski device w = some
        { h := { w.h with useCaseInfos := mapSet w.h.useCaseInfos ski info }
          remoteSki := w.remoteSki
          out := w.out ++
            [Effect.sendMessage { Type_ := GetEntityInfos, EntityInfos := rows },
             Effect.sendMessage
               { Type_ := GetUseCaseInfos
                 UseCaseInfos := mapSet w.h.useCaseInfos ski info }] } := by
  obtain ⟨rows, hrows, hsend⟩ :=
    sendEntityInfo_eq_some env.rangeOrder GetEntityInfos w.h.remoteInfos w hw
  refine ⟨rows, hrows, ?_⟩
  simp [summaries, hsend, updateUseCaseInfos, sendMessage, hinfo, sendUseCaseInfo]

theorem summaries_of_some {env : Env} {ski : String} {device : Device} {w ws : World}
    (h : summaries env ski device w = some ws) :
    printable w.h.remoteInfos = true ∧
    ∃ rows info, entityInfoRows (env.rangeOrder w.h.remoteInfos).val = some rows ∧
      derefAll useCaseInfoOf device.UseCases = some info ∧
      ws = { h := { w.h with useCaseInfos := mapSet w.h.useCaseInfos ski info }
             remoteSki := w.remoteSki
             out := w.out ++
               [Effect.sendMessage { Type_ := GetEntityInfos, EntityInfos := rows },
                Effect.sendMessage
                  { Type_ := GetUseCaseInfos
                    UseCaseInfos := mapSet w.h.useCaseInfos ski info }] } := by
  cases hp : printable w.h.remoteInfos with
  | false =>
    simp [summaries, sendEntityInfo_eq_none env.rangeOrder GetEntityInfos _ w hp] at h
  | true =>
    cases hinfo : derefAll useCaseInfoOf device.UseCases with
    | none =>
      obtain ⟨rows, _, hsend⟩ :=
        sendEntityInfo_eq_some env.rangeOrder GetEntityInfos w.h.remoteInfos w hp
      simp [summaries, hsend, updateUseCaseInfos, sendMessage, hinfo] at h
    | some info =>
      obtain ⟨rows, hrows, heq⟩ := summaries_eq_some env ski device w hp info hinfo
      rw [heq] at h
      simp only [Option.some.injEq] at h
      exact ⟨rfl, rows, info, hrows, rfl, h.symm⟩

/-! ### The command loop -/

/-- A property of every case of the `switch` of `reader` holds of `dispatch`. -/
theorem dispatch_cases (P : Option World → Prop) (env : Env) (data : Message) (w : World)
    (h1 : P (some (sendServiceList GetServiceList w.h.currentRemoteServices w)))
    (h2 : P (some (caseSelectService env data w)))
    (h3 : P (sendEntityInfo env.rangeOrder GetEntityInfos w.h.remoteInfos w))
    (h4 : P (some (sendUseCaseInfo GetUseCaseInfos w.h.useCaseInfos w)))
    (h5 : P (some (sendData data.SKI data.Text w)))
    (h6 : P (some (caseSetConsumptionLimit env data w)))
    (h7 : P (some (caseSetProductionLimit env data w)))
    (h8 : P (some (caseSetConsumptionFailsafeValue env data w)))
    (h9 : P (some (caseSetConsumptionFailsafeDuration env data w)))
    (h10 : P (some (caseSetProductionFailsafeValue env data w)))
    (h11 : P (some (caseSetProductionFailsafeDuration env data w)))
    (h12 : P (some w)) : P (dispatch env data w) := by
  unfold dispatch
  by_cases c1 : data.Type_ = GetServiceList
  · rw [if_pos c1]; exact h1
  rw [if_neg c1]
  by_cases c2 : data.Type_ = SelectService
  · rw [if_pos c2]; exact h2
  rw [if_neg c2]
  by_cases c3 : data.Type_ = GetEntityInfos
  · rw [if_pos c3]; exact h3
  rw [if_neg c3]
  by_cases c4 : data.Type_ = GetUseCaseInfos
  · rw [if_pos c4]; exact h4
  rw [if_neg c4]
  by_cases c5 : data.Type_ = GetAllData
  · rw [if_pos c5]; exact h5
  rw [if_neg c5]
  by_cases c6 : data.Type_ = SetConsumptionLimit
  · rw [if_pos c6]; exact h6
  rw [if_neg c6]
  by_cases c7 : data.Type_ = SetProductionLimit
  · rw [if_pos c7]; exact h7
  rw [if_neg c7]
  by_cases c8 : data.Type_ = SetConsumptionFailsafeValue
  · rw [if_pos c8]; exact h8
  rw [if_neg c8]
  by_cases c9 : data.Type_ = SetConsumptionFailsafeDuration
  · rw [if_pos c9]; exact h9
  rw [if_neg c9]
  by_cases c10 : data.Type_ = SetProductionFailsafeValue
  · rw [if_pos c10]; exact h10
  rw [if_neg c10]
  by_cases c11 : data.Type_ = SetProductionFailsafeDuration
  · rw [if_pos c11]; exact h11
  rw [if_neg c11]
  exact h12

/-- A property of a state holds of every state that `some` of it can equal. -/
theorem of_some_eq {Q : World → Prop} {x : World} (h : Q x) :
    ∀ w1, some x = some w1 → Q w1 := by
  intro w1 heq
  simp only [Option.some.injEq] at heq
  exact heq ▸ h

/-- An iteration of `reader` returns exactly when its `switch` does, and then
appends the acknowledge. -/
theorem readerStep_of_dispatch {env : Env} {data : Message} {w wd : World} (err : Bool)
    (h : dispatch env data w = some wd) :
    readerStep env ⟨data, err⟩ w = some (sendNotification "" Acknowledge "" wd) := by
  simp [readerStep, h]

theorem dispatch_of_readerStep {env : Env} {frame : Frame} {w w1 : World}
    (h : readerStep env frame w = some w1) :
    ∃ wd, dispatch env frame.data w = some wd ∧ w1 = sendNotification "" Acknowledge "" wd := by
  unfold readerStep at h
  dsimp only at h
  split at h
  · rename_i wd hd
    simp only [Option.some.injEq] at h
    exact ⟨wd, hd, h.symm⟩
  · simp at h

theorem sendData_sameRegistry (ski uc : String) (w : World) :
    sameRegistry w (sendData ski uc w) := by
  unfold sendData
  repeat' split
  all_goals simp [sameRegistry, sendText, sendLimit, sendValue, sendMessage]

theorem caseSelectService_sameMaps (env : Env) (data : Message) (w : World) :
    sameMaps w (caseSelectService env data w) := by
  unfold caseSelectService
  dsimp only
  split
  · split <;> simp [sameMaps]
  · split
    · exact (foldl_sameRegistry (fun w entity => readData env entity none w)
        (fun w a => readData_sameRegistry env a none w) _ _).maps
    · simp [sameMaps]

theorem dispatch_sameMaps (env : Env) (data : Message) (w : World) :
    ∀ w1, dispatch env data w = some w1 → sameMaps w w1 := by
  apply dispatch_cases (fun r => ∀ w1, r = some w1 → sameMaps w w1)
  · exact of_some_eq (by simp [sameMaps, sendServiceList, sendMessage])
  · exact of_some_eq (caseSelectService_sameMaps env data w)
  · intro w1 h
    obtain ⟨_, rows, _, rfl⟩ := sendEntityInfo_of_some h
    simp [sameMaps, sendMessage]
  · exact of_some_eq (by simp [sameMaps, sendUseCaseInfo, sendMessage])
  · exact of_some_eq (sendData_sameRegistry _ _ _).maps
  · exact of_some_eq (foldl_sameRegistry
      (fun w (s : RemoteEntityScenarios) => sendConsumptionLimit env s.Entity w)
      (fun w a => by simp [sameRegistry, sendConsumptionLimit]) _ _).maps
  · exact of_some_eq (foldl_sameRegistry
      (fun w (s : RemoteEntityScenarios) => sendProductionLimit env s.Entity w)
      (fun w a => by simp [sameRegistry, sendProductionLimit]) _ _).maps
  · exact of_some_eq (foldl_sameRegistry
      (fun w (s : RemoteEntityScenarios) => sendConsumptionFailsafeLimit env s.Entity w)
      (fun w a => by simp [sameRegistry, sendConsumptionFailsafeLimit]) _ _).maps
  · exact of_some_eq (foldl_sameRegistry
      (fun w (s : RemoteEntityScenarios) => sendConsumptionFailsafeDuration env s.Entity w)
      (fun w a => by simp [sameRegistry, sendConsumptionFailsafeDuration]) _ _).maps
  · exact of_some_eq (foldl_sameRegistry
      (fun w (s : RemoteEntityScenarios) => sendProductionFailsafeLimit env s.Entity w)
      (fun w a => by simp [sameRegistry, sendProductionFailsafeLimit]) _ _).maps
  · exact of_some_eq (foldl_sameRegistry
      (fun w (s : RemoteEntityScenarios) => sendProductionFailsafeDuration env s.Entity w)
      (fun w a => by simp [sameRegistry, sendProductionFailsafeDuration]) _ _).maps
  · exact of_some_eq (by simp [sameMaps])

theorem readerStep_sameMaps {env : Env} {frame : Frame} {w w1 : World}
    (h : readerStep env frame w = some w1) : sameMaps w w1 := by
  obtain ⟨wd, hd, rfl⟩ := dispatch_of_readerStep h
  have hm := dispatch_sameMaps env frame.data w wd hd
  simpa [sameMaps, sendNotification, sendMessage] using hm

theorem onRead_sameRegistry {α : Type} (r : Option α) (send : α → World → World)
    (hsend : ∀ v w, sameRegistry w (send v w)) (w : World) :
    sameRegistry w (onRead r send w) := by
  cases r with
  | none => exact sameRegistry_refl w
  | some v => exact hsend v w

theorem sendValue_sameRegistry (ski : String) (t : Int) (uc : String) (v : Float64)
    (w : World) : sameRegistry w (sendValue ski t uc v w) := by
  simp [sameRegistry, sendValue, sendMessage]

theorem sendValueArr_sameRegistry (ski : String) (t : Int) (uc : String) (v : List Float64)
    (w : World) : sameRegistry w (sendValueArr ski t uc v w) := by
  simp [sameRegistry, sendValueArr, sendMessage]

/-! ## The flow of the event handlers -/

theorem extendsBy_refl (P : Effect → Prop) (w : World) : extendsBy P w w :=
  ⟨[], by simp, by simp⟩

theorem extendsBy_trans {P : Effect → Prop} {a b c : World} (h1 : extendsBy P a b)
    (h2 : extendsBy P b c) : extendsBy P a c := by
  obtain ⟨es1, he1, hp1⟩ := h1
  obtain ⟨es2, he2, hp2⟩ := h2
  refine ⟨es1 ++ es2, by rw [he2, he1, List.append_assoc], ?_⟩
  intro e he
  rcases List.mem_append.mp he with h | h
  · exact hp1 e h
  · exact hp2 e h

theorem extendsBy_foldl {P : Effect → Prop} {α : Type} (f : World → α → World)
    (hf : ∀ w a, extendsBy P w (f w a)) (l : List α) (w : World) :
    extendsBy P w (l.foldl f w) := by
  induction l generalizing w with
  | nil => exact extendsBy_refl P w
  | cons a rest ih => exact extendsBy_trans (hf w a) (ih (f w a))

theorem readDataLPC_notSummary (env : Env) (entity : Entity) (ski : String) (w : World) :
    extendsBy notSummary w (readDataLPC env entity ski w) := by
  unfold readDataLPC
  cases env.uclpc.ConsumptionLimit entity <;>
  cases env.uclpc.FailsafeConsumptionActivePowerLimit entity <;>
  cases env.uclpc.FailsafeDurationMinimum entity <;>
  cases env.uclpc.ConsumptionNominalMax entity <;>
  simp [extendsBy, notSummary, sendLimit, sendValue, sendMessage]

theorem readDataLPP_notSummary (env : Env) (entity : Entity) (ski : String) (w : World) :
    extendsBy notSummary w (readDataLPP env entity ski w) := by
  unfold readDataLPP
  cases env.uclpp.ProductionLimit entity <;>
  cases env.uclpp.FailsafeProductionActivePowerLimit entity <;>
  cases env.uclpp.FailsafeDurationMinimum entity <;>
  cases env.uclpp.ProductionNominalMax entity <;>
  simp [extendsBy, notSummary, sendLimit, sendValue, sendMessage]

theorem readData_notSummary (env : Env) (entity : Entity) (ucs : Option (List String))
    (w : World) : extendsBy notSummary w (readData env entity ucs w) := by
  unfold readData
  dsimp only
  split
  · split
    · exact extendsBy_trans (readDataLPC_notSummary _ _ _ _) (readDataLPP_notSummary _ _ _ _)
    · exact readDataLPC_notSummary _ _ _ _
  · split
    · exact readDataLPP_notSummary _ _ _ _
    · exact extendsBy_refl _ _

theorem onRead_notSummary {α : Type} (r : Option α) (send : α → World → World)
    (hsend : ∀ v w, extendsBy notSummary w (send v w)) (w : World) :
    extendsBy notSummary w (onRead r send w) := by
  cases r with
  | none => exact extendsBy_refl _ w
  | some v => exact hsend v w

theorem sendValue_notSummary (ski : String) (t : Int) (uc : String)
    (ht : t ≠ GetEntityInfos ∧ t ≠ GetUseCaseInfos) (v : Float64) (w : World) :
    extendsBy notSummary w (sendValue ski t uc v w) := by
  simp [extendsBy, notSummary, sendValue, sendMessage, ht]

theorem sendValueArr_notSummary (ski : String) (t : Int) (uc : String)
    (ht : t ≠ GetEntityInfos ∧ t ≠ GetUseCaseInfos) (v : List Float64) (w : World) :
    extendsBy notSummary w (sendValueArr ski t uc v w) := by
  simp [extendsBy, notSummary, sendValueArr, sendMessage, ht]

/-- A successful `updateEntityInfos` leaves a record that lists the tag. -/
theorem updateEntityInfos_lists_tag {ski : String} {device : Device} {uc : String}
    {w w0 : World} (hup : updateEntityInfos ski device uc w = some w0) :
    hasUseCase w0 ski uc := by
  unfold updateEntityInfos at hup
  split at hup
  · dsimp only at hup
    split at hup
    · simp at hup
    · simp only [Option.some.injEq] at hup
      subst hup
      exact ⟨_, mapGet_mapSet_same _ _ _, by simp⟩
  · rename_i info hrec
    dsimp only at hup
    split at hup
    · simp only [Option.some.injEq] at hup
      subst hup
      exact ⟨_, mapGet_mapSet_same _ _ _, by simp⟩
    · rename_i hfound
      simp only [Option.some.injEq] at hup
      subst hup
      exact ⟨info, hrec, by simpa using hfound⟩

theorem updateEntityInfos_hasUseCase {ski : String} {device : Device} {uc : String}
    {w w0 : World} (hup : updateEntityInfos ski device uc w = some w0) {id tag : String}
    (hhas : hasUseCase w id tag) : hasUseCase w0 id tag := by
  obtain ⟨info, hinfo, htag⟩ := hhas
  unfold updateEntityInfos at hup
  split at hup
  · rename_i hnone
    dsimp only at hup
    split at hup
    · simp at hup
    · simp only [Option.some.injEq] at hup
      subst hup
      have hne : id ≠ ski := by
        rintro rfl
        rw [hnone] at hinfo
        simp at hinfo
      exact ⟨info, by simpa [mapGet_mapSet_other _ _ _ _ hne] using hinfo, htag⟩
  · rename_i info0 hsome
    dsimp only at hup
    split at hup
    · simp only [Option.some.injEq] at hup
      subst hup
      by_cases hid : id = ski
      · subst hid
        rw [hsome] at hinfo
        simp only [Option.some.injEq] at hinfo
        subst hinfo
        exact ⟨_, mapGet_mapSet_same _ _ _, by simp [htag]⟩
      · exact ⟨info, by simpa [mapGet_mapSet_other _ _ _ _ hid] using hinfo, htag⟩
    · simp only [Option.some.injEq] at hup
      subst hup
      exact ⟨info, hinfo, htag⟩

theorem hasUseCase_of_remoteInfos {w w1 : World} (h : w1.h.remoteInfos = w.h.remoteInfos)
    {id tag : String} (hhas : hasUseCase w id tag) : hasUseCase w1 id tag := by
  unfold hasUseCase at *
  rw [h]
  exact hhas

/-- The summaries return `ws`: the three steps each returned. -/
theorem summaries_split {env : Env} {ski : String} {device : Device} {w ws : World}
    (h : summaries env ski device w = some ws) :
    ∃ wa wb, sendEntityInfo env.rangeOrder GetEntityInfos w.h.remoteInfos w = some wa ∧
      updateUseCaseInfos ski device wa = some wb ∧
      ws = sendUseCaseInfo GetUseCaseInfos wb.h.useCaseInfos wb := by
  unfold summaries at h
  split at h
  · simp at h
  · rename_i wa hse
    split at h
    · simp at h
    · rename_i wb huc
      simp only [Option.some.injEq] at h
      exact ⟨wa, wb, hse, huc, h.symm⟩

/-- The summaries panic: one of the two dereferencing steps did. -/
theorem summaries_eq_none {env : Env} {ski : String} {device : Device} {w : World}
    (h : summaries env ski device w = none) :
    sendEntityInfo env.rangeOrder GetEntityInfos w.h.remoteInfos w = none ∨
    ∃ wa, sendEntityInfo env.rangeOrder GetEntityInfos w.h.remoteInfos w = some wa ∧
      updateUseCaseInfos ski device wa = none := by
  unfold summaries at h
  split at h
  · rename_i hse
    exact Or.inl hse
  · rename_i wa hse
    split at h
    · rename_i huc
      exact Or.inr ⟨wa, hse, huc⟩
    · simp at h

theorem OnLPCEvent_flow (env : Env) (ski : String) (device : Device) (entity : Entity)
    (event : LPCEvent) (w : World) :
    handlerFlow env "LPC" ski device w (OnLPCEvent env ski device entity event w) := by
  refine ⟨?_, ?_, ?_, ?_⟩
  · intro hconn
    unfold OnLPCEvent
    split
    · rename_i hc
      exact absurd hc hconn
    · rfl
  · intro hconn hup
    unfold OnLPCEvent
    rw [hconn]
    simp only [hup]
  · intro w0 hconn hup hs
    unfold OnLPCEvent
    rw [hconn]
    simp only [hup]
    rcases summaries_eq_none hs with hse | ⟨wa, hse, huc⟩
    · simp only [hse]
    · simp only [hse, huc]
  · intro w0 ws hconn hup hs
    obtain ⟨wa, wb, hse, huc, rfl⟩ := summaries_split hs
    unfold OnLPCEvent
    rw [hconn]
    simp only [hup, hse, huc]
    cases event <;> dsimp only
    · exact ⟨_, rfl, readData_notSummary _ _ _ _, readData_sameRegistry _ _ _ _⟩
    · split
      · split
        · exact ⟨_, rfl, by simp [extendsBy, notSummary, sendLimit, sendMessage],
            by simp [sameRegistry, sendLimit, sendMessage]⟩
        · exact ⟨_, rfl, extendsBy_refl _ _, sameRegistry_refl _⟩
      · exact ⟨_, rfl, extendsBy_refl _ _, sameRegistry_refl _⟩
    · split
      · split
        · exact ⟨_, rfl, by simp [extendsBy, notSummary, sendValue, sendMessage],
            by simp [sameRegistry, sendValue, sendMessage]⟩
        · exact ⟨_, rfl, extendsBy_refl _ _, sameRegistry_refl _⟩
      · exact ⟨_, rfl, extendsBy_refl _ _, sameRegistry_refl _⟩
    · split
      · split
        · exact ⟨_, rfl, by simp [extendsBy, notSummary, sendValue, sendMessage],
            by simp [sameRegistry, sendValue, sendMessage]⟩
        · exact ⟨_, rfl, extendsBy_refl _ _, sameRegistry_refl _⟩
      · exact ⟨_, rfl, extendsBy_refl _ _, sameRegistry_refl _⟩
    · exact ⟨_, rfl, extendsBy_refl _ _, sameRegistry_refl _⟩

theorem OnLPPEvent_flow (env : Env) (ski : String) (device : Device) (entity : Entity)
    (event : LPPEvent) (w : World) :
    handlerFlow env "LPP" ski device w (OnLPPEvent env ski device entity event w) := by
  refine ⟨?_, ?_, ?_, ?_⟩
  · intro hconn
    unfold OnLPPEvent
    split
    · rename_i hc
      exact absurd hc hconn
    · rfl
  · intro hconn hup
    unfold OnLPPEvent
    rw [hconn]
    simp only [hup]
  · intro w0 hconn hup hs
    unfold OnLPPEvent
    rw [hconn]
    simp only [hup]
    rcases summaries_eq_none hs with hse | ⟨wa, hse, huc⟩
    · simp only [hse]
    · simp only [hse, huc]
  · intro w0 ws hconn hup hs
    obtain ⟨wa, wb, hse, huc, rfl⟩ := summaries_split hs
    unfold OnLPPEvent
    rw [hconn]
    simp only [hup, hse, huc]
    cases event <;> dsimp only
    · exact ⟨_, rfl, readData_notSummary _ _ _ _, readData_sameRegistry _ _ _ _⟩
    · split
      · split
        · exact ⟨_, rfl, by simp [extendsBy, notSummary, sendLimit, sendMessage],
            by simp [sameRegistry, sendLimit, sendMessage]⟩
        · exact ⟨_, rfl, extendsBy_refl _ _, sameRegistry_refl _⟩
      · exact ⟨_, rfl, extendsBy_refl _ _, sameRegistry_refl _⟩
    · split
      · split
        · exact ⟨_, rfl, by simp [extendsBy, notSummary, sendValue, sendMessage],
            by simp [sameRegistry, sendValue, sendMessage]⟩
        · exact ⟨_, rfl, extendsBy_refl _ _, sameRegistry_refl _⟩
      · exact ⟨_, rfl, extendsBy_refl _ _, sameRegistry_refl _⟩
    · split
      · split
        · exact ⟨_, rfl, by simp [extendsBy, notSummary, sendValue, sendMessage],
            by simp [sameRegistry, sendValue, sendMessage]⟩
        · exact ⟨_, rfl, extendsBy_refl _ _, sameRegistry_refl _⟩
      · exact ⟨_, rfl, extendsBy_refl _ _, sameRegistry_refl _⟩
    · exact ⟨_, rfl, extendsBy_refl _ _, sameRegistry_refl _⟩

theorem OnMGCPEvent_flow (env : Env) (ski : String) (device : Device) (entity : Entity)
    (event : MGCPEvent) (w : World) :
    handlerFlow env "MGCP" ski device w (OnMGCPEvent env ski device entity event w) := by
  refine ⟨?_, ?_, ?_, ?_⟩
  · intro hconn
    unfold OnMGCPEvent
    split
    · rename_i hc
      exact absurd hc hconn
    · rfl
  · intro hconn hup
    unfold OnMGCPEvent
    rw [hconn]
    simp only [hup]
  · intro w0 hconn hup hs
    unfold OnMGCPEvent
    rw [hconn]
    simp only [hup]
    rcases summaries_eq_none hs with hse | ⟨wa, hse, huc⟩
    · simp only [hse]
    · simp only [hse, huc]
  · intro w0 ws hconn hup hs
    obtain ⟨wa, wb, hse, huc, rfl⟩ := summaries_split hs
    unfold OnMGCPEvent
    rw [hconn]
    simp only [hup, hse, huc]
    cases event <;> dsimp only
    · exact ⟨_, rfl, readData_notSummary _ _ _ _, readData_sameRegistry _ _ _ _⟩
    · exact ⟨_, rfl, onRead_notSummary _ _ (sendValue_notSummary _ _ _ (by decide)) _,
        onRead_sameRegistry _ _ (sendValue_sameRegistry _ _ _) _⟩
    · exact ⟨_, rfl, onRead_notSummary _ _ (sendValue_notSummary _ _ _ (by decide)) _,
        onRead_sameRegistry _ _ (sendValue_sameRegistry _ _ _) _⟩
    · exact ⟨_, rfl, onRead_notSummary _ _ (sendValue_notSummary _ _ _ (by decide)) _,
        onRead_sameRegistry _ _ (sendValue_sameRegistry _ _ _) _⟩
    · exact ⟨_, rfl, onRead_notSummary _ _ (sendValue_notSummary _ _ _ (by decide)) _,
        onRead_sameRegistry _ _ (sendValue_sameRegistry _ _ _) _⟩
    · exact ⟨_, rfl, onRead_notSummary _ _ (sendValueArr_notSummary _ _ _ (by decide)) _,
        onRead_sameRegistry _ _ (sendValueArr_sameRegistry _ _ _) _⟩
    · exact ⟨_, rfl, onRead_notSummary _ _ (sendValueArr_notSummary _ _ _ (by decide)) _,
        onRead_sameRegistry _ _ (sendValueArr_sameRegistry _ _ _) _⟩
    · exact ⟨_, rfl, onRead_notSummary _ _ (sendValue_notSummary _ _ _ (by decide)) _,
        onRead_sameRegistry _ _ (sendValue_sameRegistry _ _ _) _⟩
    · exact ⟨_, rfl, extendsBy_refl _ _, sameRegistry_refl _⟩

theorem OnMPCEvent_flow (env : Env) (ski : String) (device : Device) (entity : Entity)
    (event : MPCEvent) (w : World) :
    handlerFlow env "MPC" ski device w (OnMPCEvent env ski device entity event w) := by
  refine ⟨?_, ?_, ?_, ?_⟩
  · intro hconn
    unfold OnMPCEvent
    split
    · rename_i hc
      exact absurd hc hconn
    · rfl
  · intro hconn hup
    unfold OnMPCEvent
    rw [hconn]
    simp only [hup]
  · intro w0 hconn hup hs
    unfold OnMPCEvent
    rw [hconn]
    simp only [hup]
    rcases summaries_eq_none hs with hse | ⟨wa, hse, huc⟩
    · simp only [hse]
    · simp only [hse, huc]
  · intro w0 ws hconn hup hs
    obtain ⟨wa, wb, hse, huc, rfl⟩ := summaries_split hs
    unfold OnMPCEvent
    rw [hconn]
    simp only [hup, hse, huc]
    cases event <;> dsimp only
    · exact ⟨_, rfl, readData_notSummary _ _ _ _, readData_sameRegistry _ _ _ _⟩
    · exact ⟨_, rfl, onRead_notSummary _ _ (sendValue_notSummary _ _ _ (by decide)) _,
        onRead_sameRegistry _ _ (sendValue_sameRegistry _ _ _) _⟩
    · exact ⟨_, rfl, onRead_notSummary _ _ (sendValueArr_notSummary _ _ _ (by decide)) _,
        onRead_sameRegistry _ _ (sendValueArr_sameRegistry _ _ _) _⟩
    · exact ⟨_, rfl, onRead_notSummary _ _ (sendValue_notSummary _ _ _ (by decide)) _,
        onRead_sameRegistry _ _ (sendValue_sameRegistry _ _ _) _⟩
    · exact ⟨_, rfl, onRead_notSummary _ _ (sendValue_notSummary _ _ _ (by decide)) _,
        onRead_sameRegistry _ _ (sendValue_sameRegistry _ _ _) _⟩
    · exact ⟨_, rfl, onRead_notSummary _ _ (sendValueArr_notSummary _ _ _ (by decide)) _,
        onRead_sameRegistry _ _ (sendValueArr_sameRegistry _ _ _) _⟩
    · exact ⟨_, rfl, onRead_notSummary _ _ (sendValueArr_notSummary _ _ _ (by decide)) _,
        onRead_sameRegistry _ _ (sendValueArr_sameRegistry _ _ _) _⟩
    · exact ⟨_, rfl, onRead_notSummary _ _ (sendValue_notSummary _ _ _ (by decide)) _,
        onRead_sameRegistry _ _ (sendValue_sameRegistry _ _ _) _⟩
    · exact ⟨_, rfl, extendsBy_refl _ _, sameRegistry_refl _⟩

/-- What a handler that returned has done: nothing at all behind a closed gate,
and otherwise the registry update, the summaries and calls of other kinds. -/
theorem handlerFlow_of_some {env : Env} {uc ski : String} {device : Device} {w w1 : World}
    {result : Option World} (hf : handlerFlow env uc ski device w result)
    (h : result = some w1) :
    (mapGet w.h.isConnected ski ≠ some true ∧ w1 = w) ∨
    (mapGet w.h.isConnected ski = some true ∧
      ∃ w0 ws, updateEntityInfos ski device uc w = some w0 ∧
        summaries env ski device w0 = some ws ∧
        extendsBy notSummary ws w1 ∧ sameRegistry ws w1) := by
  obtain ⟨h1, h2, h3, h4⟩ := hf
  by_cases hconn : mapGet w.h.isConnected ski = some true
  · right
    refine ⟨hconn, ?_⟩
    cases hup : updateEntityInfos ski device uc w with
    | none =>
      rw [h2 hconn hup] at h
      simp at h
    | some w0 =>
      cases hs : summaries env ski device w0 with
      | none =>
        rw [h3 w0 hconn hup hs] at h
        simp at h
      | some ws =>
        obtain ⟨w2, hw2, hext, hreg⟩ := h4 w0 ws hconn hup hs
        rw [hw2] at h
        simp only [Option.some.injEq] at h
        subst h
        exact ⟨w0, ws, rfl, hs, hext, hreg⟩
  · left
    have := h1 hconn
    rw [this] at h
    simp only [Option.some.injEq] at h
    exact ⟨hconn, h.symm⟩

/-- The handler of a connected and known identity returns when every record
can be shown and the device can be presented. -/
theorem handlerFlow_returns {env : Env} {uc ski : String} {device : Device} {w : World}
    {result : Option World} (hf : handlerFlow env uc ski device w result)
    (hconn : mapGet w.h.isConnected ski = some true) (hknown : known w ski = true)
    (hw : printable w.h.remoteInfos = true) (hdev : presentable device = true) :
    ∃ w0 ws w1, updateEntityInfos ski device uc w = some w0 ∧
      summaries env ski device w0 = some ws ∧ result = some w1 ∧
      extendsBy notSummary ws w1 ∧ sameRegistry ws w1 := by
  obtain ⟨w0, hup⟩ := updateEntityInfos_known device uc hknown
  have hw0 := updateEntityInfos_printable hup hw hdev
  obtain ⟨info, hinfo⟩ := presentable_useCases hdev
  obtain ⟨rows, _, hs⟩ := summaries_eq_some env ski device w0 hw0 info hinfo
  obtain ⟨w1, hw1, hext, hreg⟩ := hf.2.2.2 w0 _ hconn hup hs
  exact ⟨w0, _, w1, hup, hs, hw1, hext, hreg⟩

/-- A handler returns whenever its gate is closed; behind an open gate it
returns for a known identity whose device can be presented. -/
theorem handlerFlow_total {env : Env} {uc ski : String} {device : Device} {w : World}
    {result : Option World} (hf : handlerFlow env uc ski device w result)
    (hknown : known w ski = true)
    (hw : printable w.h.remoteInfos = true) (hdev : presentable device = true) :
    ∃ w1, result = some w1 := by
  by_cases hconn : mapGet w.h.isConnected ski = some true
  · obtain ⟨_, _, w1, _, _, hw1, _, _⟩ := handlerFlow_returns hf hconn hknown hw hdev
    exact ⟨w1, hw1⟩
  · exact ⟨w, hf.1 hconn⟩

/-- The summaries leave the session records as they are. -/
theorem summaries_remoteInfos {env : Env} {ski : String} {device : Device} {w ws : World}
    (h : summaries env ski device w = some ws) : ws.h.remoteInfos = w.h.remoteInfos := by
  obtain ⟨_, rows, info, _, _, rfl⟩ := summaries_of_some h
  rfl

/-- The session records after a handler returned are those the registry update
left, or those before when the gate was closed. -/
theorem handlerFlow_remoteInfos {env : Env} {uc ski : String} {device : Device} {w w1 : World}
    {result : Option World} (hf : handlerFlow env uc ski device w result)
    (h : result = some w1) :
    ∃ w0, (w0 = w ∨ updateEntityInfos ski device uc w = some w0) ∧
      w1.h.remoteInfos = w0.h.remoteInfos := by
  rcases handlerFlow_of_some hf h with ⟨_, rfl⟩ | ⟨_, w0, ws, hup, hs, _, hreg⟩
  · exact ⟨w1, Or.inl rfl, rfl⟩
  · exact ⟨w0, Or.inr hup, by rw [hreg.2.1, summaries_remoteInfos hs]⟩

/-- Every state a handler returns keeps the records showable, when they were. -/
theorem handlerFlow_printable {env : Env} {uc ski : String} {device : Device} {w w1 : World}
    {result : Option World} (hf : handlerFlow env uc ski device w result)
    (h : result = some w1) (hw : printable w.h.remoteInfos = true) :
    printable w1.h.remoteInfos = true := by
  rcases handlerFlow_of_some hf h with ⟨_, rfl⟩ | ⟨_, w0, ws, hup, hs, _, hreg⟩
  · exact hw
  · rw [hreg.2.1, summaries_remoteInfos hs]
    exact (summaries_of_some hs).1

/-! ## Value events of the limit use cases -/

theorem wrapInt64_of_range {x : Int} (hlo : -9223372036854775808 ≤ x)
    (hhi : x ≤ 9223372036854775807) : wrapInt64 x = x := by
  unfold wrapInt64
  have h : (x + 2 ^ 63) % 2 ^ 64 = x + 2 ^ 63 :=
    Int.emod_eq_of_lt (by norm_num; omega) (by norm_num; omega)
  rw [h]
  ring

theorem seconds_roundtrip {n : Int} (hlo : -9223372036 ≤ n) (hhi : n ≤ 9223372036) :
    mulDuration n Second = n * 1000000000 ∧
    divDuration (mulDuration n Second) Second = n := by
  have h : mulDuration n Second = n * 1000000000 := by
    unfold mulDuration Second
    exact wrapInt64_of_range (by omega) (by omega)
  refine ⟨h, ?_⟩
  rw [h]
  unfold divDuration Second
  exact Int.mul_tdiv_cancel n (by norm_num)

theorem mulDuration_seconds {n : Int} (hlo : -9223372036 ≤ n) (hhi : n ≤ 9223372036) :
    mulDuration n Second = seconds n :=
  (seconds_roundtrip hlo hhi).1

theorem toDuration_intCast {n : Int} (hlo : -9223372036 ≤ n) (hhi : n ≤ 9223372036) :
    toDuration (n : ℚ) = n := by
  unfold toDuration
  simp only [Rat.num_intCast, Rat.den_intCast, Nat.cast_one, Int.tdiv_one]
  rw [if_pos ⟨by omega, by omega⟩]

/-- A loop that only appends one call per element appends the calls of all elements. -/
theorem foldl_append_out {α : Type} (g : controlbox → α → Effect) (l : List α) (w : World) :
    l.foldl (fun w a => { w with out := w.out ++ [g w.h a] }) w
      = { w with out := w.out ++ l.map (g w.h) } := by
  induction l generalizing w with
  | nil => simp
  | cons a rest ih => rw [List.foldl_cons, ih]; simp

theorem caseSetConsumptionLimit_eq (env : Env) (data : Message) (w : World) :
    caseSetConsumptionLimit env data w =
      { h := { w.h with consumptionLimits := commandedLimit data }
        remoteSki := w.remoteSki
        out := w.out ++ env.uclpc.RemoteEntitiesScenarios.map fun s =>
          Effect.write (.uclpcWriteConsumptionLimit s.Entity (commandedLimit data))
            (env.uclpc.WriteConsumptionLimit s.Entity (commandedLimit data)) } := by
  unfold caseSetConsumptionLimit
  exact foldl_append_out (fun h (s : RemoteEntityScenarios) =>
    Effect.write (.uclpcWriteConsumptionLimit s.Entity h.consumptionLimits)
      (env.uclpc.WriteConsumptionLimit s.Entity h.consumptionLimits)) _ _

theorem caseSetProductionLimit_eq (env : Env) (data : Message) (w : World) :
    caseSetProductionLimit env data w =
      { h := { w.h with productionLimits := commandedLimit data }
        remoteSki := w.remoteSki
        out := w.out ++ env.uclpp.RemoteEntitiesScenarios.map fun s =>
          Effect.write (.uclppWriteProductionLimit s.Entity (commandedLimit data))
            (env.uclpp.WriteProductionLimit s.Entity (commandedLimit data)) } := by
  unfold caseSetProductionLimit
  exact foldl_append_out (fun h (s : RemoteEntityScenarios) =>
    Effect.write (.uclppWriteProductionLimit s.Entity h.productionLimits)
      (env.uclpp.WriteProductionLimit s.Entity h.productionLimits)) _ _

theorem caseSetConsumptionFailsafeValue_eq (env : Env) (data : Message) (w : World) :
    caseSetConsumptionFailsafeValue env data w =
      { h := { w.h with consumptionFailsafeLimits :=
            { w.h.consumptionFailsafeLimits with Value := data.Value } }
        remoteSki := w.remoteSki
        out := w.out ++ env.uclpc.RemoteEntitiesScenarios.map fun s =>
          Effect.write (.uclpcWriteFailsafeConsumptionActivePowerLimit s.Entity data.Value)
            (env.uclpc.WriteFailsafeConsumptionActivePowerLimit s.Entity data.Value) } := by
  unfold caseSetConsumptionFailsafeValue
  exact foldl_append_out (fun h (s : RemoteEntityScenarios) =>
    Effect.write
      (.uclpcWriteFailsafeConsumptionActivePowerLimit s.Entity h.consumptionFailsafeLimits.Value)
      (env.uclpc.WriteFailsafeConsumptionActivePowerLimit s.Entity
        h.consumptionFailsafeLimits.Value)) _ _

theorem caseSetConsumptionFailsafeDuration_eq (env : Env) (data : Message) (w : World) :
    caseSetConsumptionFailsafeDuration env data w =
      { h := { w.h with consumptionFailsafeLimits :=
            { w.h.consumptionFailsafeLimits with Duration := commandedDuration data } }
        remoteSki := w.remoteSki
        out := w.out ++ env.uclpc.RemoteEntitiesScenarios.map fun s =>
          Effect.write (.uclpcWriteFailsafeDurationMinimum s.Entity (commandedDuration data))
            (env.uclpc.WriteFailsafeDurationMinimum s.Entity (commandedDuration data)) } := by
  unfold caseSetConsumptionFailsafeDuration
  exact foldl_append_out (fun h (s : RemoteEntityScenarios) =>
    Effect.write
      (.uclpcWriteFailsafeDurationMinimum s.Entity h.consumptionFailsafeLimits.Duration)
      (env.uclpc.WriteFailsafeDurationMinimum s.Entity
        h.consumptionFailsafeLimits.Duration)) _ _

theorem caseSetProductionFailsafeValue_eq (env : Env) (data : Message) (w : World) :
    caseSetProductionFailsafeValue env data w =
      { h := { w.h with productionFailsafeLimits :=
            { w.h.productionFailsafeLimits with Value := data.Value } }
        remoteSki := w.remoteSki
        out := w.out ++ env.uclpp.RemoteEntitiesScenarios.map fun s =>
          Effect.write (.uclppWriteFailsafeProductionActivePowerLimit s.Entity data.Value)
            (env.uclpp.WriteFailsafeProductionActivePowerLimit s.Entity data.Value) } := by
  unfold caseSetProductionFailsafeValue
  exact foldl_append_out (fun h (s : RemoteEntityScenarios) =>
    Effect.write
      (.uclppWriteFailsafeProductionActivePowerLimit s.Entity h.productionFailsafeLimits.Value)
      (env.uclpp.WriteFailsafeProductionActivePowerLimit s.Entity
        h.productionFailsafeLimits.Value)) _ _

theorem caseSetProductionFailsafeDuration_eq (env : Env) (data : Message) (w : World) :
    caseSetProductionFailsafeDuration env data w =
      { h := { w.h with productionFailsafeLimits :=
            { w.h.productionFailsafeLimits with Duration := commandedDuration data } }
        remoteSki := w.remoteSki
        out := w.out ++ env.uclpp.RemoteEntitiesScenarios.map fun s =>
          Effect.write (.uclppWriteFailsafeDurationMinimum s.Entity (commandedDuration data))
            (env.uclpp.WriteFailsafeDurationMinimum s.Entity (commandedDuration data)) } := by
  unfold caseSetProductionFailsafeDuration
  exact foldl_append_out (fun h (s : RemoteEntityScenarios) =>
    Effect.write
      (.uclppWriteFailsafeDurationMinimum s.Entity h.productionFailsafeLimits.Duration)
      (env.uclpp.WriteFailsafeDurationMinimum s.Entity
        h.productionFailsafeLimits.Duration)) _ _

theorem readDataLPC_notAcknowledge (env : Env) (entity : Entity) (ski : String) (w : World) :
    extendsBy notAcknowledge w (readDataLPC env entity ski w) := by
  unfold readDataLPC
  cases env.uclpc.ConsumptionLimit entity <;>
  cases env.uclpc.FailsafeConsumptionActivePowerLimit entity <;>
  cases env.uclpc.FailsafeDurationMinimum entity <;>
  cases env.uclpc.ConsumptionNominalMax entity <;>
  simp [extendsBy, notAcknowledge, sendLimit, sendValue, sendMessage]

theorem readDataLPP_notAcknowledge (env : Env) (entity : Entity) (ski : String) (w : World) :
    extendsBy notAcknowledge w (readDataLPP env entity ski w) := by
  unfold readDataLPP
  cases env.uclpp.ProductionLimit entity <;>
  cases env.uclpp.FailsafeProductionActivePowerLimit entity <;>
  cases env.uclpp.FailsafeDurationMinimum entity <;>
  cases env.uclpp.ProductionNominalMax entity <;>
  simp [extendsBy, notAcknowledge, sendLimit, sendValue, sendMessage]

theorem readData_notAcknowledge (env : Env) (entity : Entity) (ucs : Option (List String))
    (w : World) : extendsBy notAcknowledge w (readData env entity ucs w) := by
  unfold readData
  dsimp only
  split
  · split
    · exact extendsBy_trans (readDataLPC_notAcknowledge _ _ _ _)
        (readDataLPP_notAcknowledge _ _ _ _)
    · exact readDataLPC_notAcknowledge _ _ _ _
  · split
    · exact readDataLPP_notAcknowledge _ _ _ _
    · exact extendsBy_refl _ _

theorem sendData_notAcknowledge (ski uc : String) (w : World) :
    extendsBy notAcknowledge w (sendData ski uc w) := by
  unfold sendData
  repeat' split
  all_goals simp [extendsBy, notAcknowledge, sendText, sendLimit, sendValue, sendMessage]

theorem caseSelectService_notAcknowledge (env : Env) (data : Message) (w : World) :
    extendsBy notAcknowledge w (caseSelectService env data w) := by
  unfold caseSelectService
  dsimp only
  split
  · split <;> simp [extendsBy, notAcknowledge]
  · split
    · exact extendsBy_foldl (fun w entity => readData env entity none w)
        (fun w a => readData_notAcknowledge env a none w) _
        { w with remoteSki := data.Text }
    · simp [extendsBy]

theorem dispatch_notAcknowledge (env : Env) (data : Message) (w : World) :
    ∀ w1, dispatch env data w = some w1 → extendsBy notAcknowledge w w1 := by
  apply dispatch_cases (fun r => ∀ w1, r = some w1 → extendsBy notAcknowledge w w1)
  · exact of_some_eq (by simp [extendsBy, notAcknowledge, sendServiceList, sendMessage])
  · exact of_some_eq (caseSelectService_notAcknowledge env data w)
  · intro w1 h
    obtain ⟨_, rows, _, rfl⟩ := sendEntityInfo_of_some h
    simp [extendsBy, notAcknowledge, sendMessage]
  · exact of_some_eq (by simp [extendsBy, notAcknowledge, sendUseCaseInfo, sendMessage])
  · exact of_some_eq (sendData_notAcknowledge _ _ _)
  · exact of_some_eq (extendsBy_foldl
      (fun w (s : RemoteEntityScenarios) => sendConsumptionLimit env s.Entity w)
      (fun w a => by simp [extendsBy, notAcknowledge, sendConsumptionLimit]) _ _)
  · exact of_some_eq (extendsBy_foldl
      (fun w (s : RemoteEntityScenarios) => sendProductionLimit env s.Entity w)
      (fun w a => by simp [extendsBy, notAcknowledge, sendProductionLimit]) _ _)
  · exact of_some_eq (extendsBy_foldl
      (fun w (s : RemoteEntityScenarios) => sendConsumptionFailsafeLimit env s.Entity w)
      (fun w a => by simp [extendsBy, notAcknowledge, sendConsumptionFailsafeLimit]) _ _)
  · exact of_some_eq (extendsBy_foldl
      (fun w (s : RemoteEntityScenarios) => sendConsumptionFailsafeDuration env s.Entity w)
      (fun w a => by simp [extendsBy, notAcknowledge, sendConsumptionFailsafeDuration]) _ _)
  · exact of_some_eq (extendsBy_foldl
      (fun w (s : RemoteEntityScenarios) => sendProductionFailsafeLimit env s.Entity w)
      (fun w a => by simp [extendsBy, notAcknowledge, sendProductionFailsafeLimit]) _ _)
  · exact of_some_eq (extendsBy_foldl
      (fun w (s : RemoteEntityScenarios) => sendProductionFailsafeDuration env s.Entity w)
      (fun w a => by simp [extendsBy, notAcknowledge, sendProductionFailsafeDuration]) _ _)
  · exact of_some_eq (extendsBy_refl _ _)

/-- The `switch` of `reader` returns unless it is the case `GetEntityInfos` over
a record that cannot be shown. -/
theorem dispatch_returns (env : Env) (data : Message) (w : World)
    (hw : data.Type_ = GetEntityInfos → printable w.h.remoteInfos = true) :
    ∃ wd, dispatch env data w = some wd := by
  unfold dispatch
  by_cases c0 : data.Type_ = GetServiceList
  · rw [if_pos c0]; exact ⟨_, rfl⟩
  rw [if_neg c0]
  by_cases c1 : data.Type_ = SelectService
  · rw [if_pos c1]; exact ⟨_, rfl⟩
  rw [if_neg c1]
  by_cases c2 : data.Type_ = GetEntityInfos
  · rw [if_pos c2]
    obtain ⟨rows, _, hsend⟩ :=
      sendEntityInfo_eq_some env.rangeOrder GetEntityInfos w.h.remoteInfos w (hw c2)
    exact ⟨_, hsend⟩
  rw [if_neg c2]
  by_cases c3 : data.Type_ = GetUseCaseInfos
  · rw [if_pos c3]; exact ⟨_, rfl⟩
  rw [if_neg c3]
  by_cases c4 : data.Type_ = GetAllData
  · rw [if_pos c4]; exact ⟨_, rfl⟩
  rw [if_neg c4]
  by_cases c5 : data.Type_ = SetConsumptionLimit
  · rw [if_pos c5]; exact ⟨_, rfl⟩
  rw [if_neg c5]
  by_cases c6 : data.Type_ = SetProductionLimit
  · rw [if_pos c6]; exact ⟨_, rfl⟩
  rw [if_neg c6]
  by_cases c7 : data.Type_ = SetConsumptionFailsafeValue
  · rw [if_pos c7]; exact ⟨_, rfl⟩
  rw [if_neg c7]
  by_cases c8 : data.Type_ = SetConsumptionFailsafeDuration
  · rw [if_pos c8]; exact ⟨_, rfl⟩
  rw [if_neg c8]
  by_cases c9 : data.Type_ = SetProductionFailsafeValue
  · rw [if_pos c9]; exact ⟨_, rfl⟩
  rw [if_neg c9]
  by_cases c10 : data.Type_ = SetProductionFailsafeDuration
  · rw [if_pos c10]; exact ⟨_, rfl⟩
  rw [if_neg c10]
  exact ⟨_, rfl⟩

theorem dispatch_SetConsumptionLimit (env : Env) (data : Message) (w : World)
    (h : data.Type_ = SetConsumptionLimit) :
    dispatch env data w = some (caseSetConsumptionLimit env data w) := by
  simp [dispatch, h]

theorem dispatch_SetProductionLimit (env : Env) (data : Message) (w : World)
    (h : data.Type_ = SetProductionLimit) :
    dispatch env data w = some (caseSetProductionLimit env data w) := by
  simp [dispatch, h]

theorem dispatch_SetConsumptionFailsafeValue (env : Env) (data : Message) (w : World)
    (h : data.Type_ = SetConsumptionFailsafeValue) :
    dispatch env data w = some (caseSetConsumptionFailsafeValue env data w) := by
  simp [dispatch, h]

theorem dispatch_SetConsumptionFailsafeDuration (env : Env) (data : Message) (w : World)
    (h : data.Type_ = SetConsumptionFailsafeDuration) :
    dispatch env data w = some (caseSetConsumptionFailsafeDuration env data w) := by
  simp [dispatch, h]

theorem dispatch_SetProductionFailsafeValue (env : Env) (data : Message) (w : World)
    (h : data.Type_ = SetProductionFailsafeValue) :
    dispatch env data w = some (caseSetProductionFailsafeValue env data w) := by
  simp [dispatch, h]

theorem dispatch_SetProductionFailsafeDuration (env : Env) (data : Message) (w : World)
    (h : data.Type_ = SetProductionFailsafeDuration) :
    dispatch env data w = some (caseSetProductionFailsafeDuration env data w) := by
  simp [dispatch, h]

/-- The trace after an iteration of `reader` that returned: the calls of the
`switch`, none of them an acknowledge, then the acknowledge. -/
theorem out_readerStep {env : Env} {frame : Frame} {w w1 : World}
    (h : readerStep env frame w = some w1) :
    ∃ pre, w1.out = w.out ++ pre ++ [Effect.sendMessage acknowledge] ∧
      ∀ e ∈ pre, notAcknowledge e := by
  obtain ⟨wd, hd, rfl⟩ := dispatch_of_readerStep h
  obtain ⟨pre, hpre, hall⟩ := dispatch_notAcknowledge env frame.data w wd hd
  exact ⟨pre, by simp [sendNotification, sendMessage, acknowledge, hpre], hall⟩

/-- An iteration of `reader` returns unless its command is `GetEntityInfos` over
a record that cannot be shown. -/
theorem readerStep_returns (env : Env) (frame : Frame) (w : World)
    (hw : frame.data.Type_ = GetEntityInfos → printable w.h.remoteInfos = true) :
    ∃ w1, readerStep env frame w = some w1 := by
  obtain ⟨wd, hd⟩ := dispatch_returns env frame.data w hw
  exact ⟨_, readerStep_of_dispatch frame.err hd⟩

/-- The iteration of `reader` for `SetConsumptionLimit`, in full. -/
theorem readerStep_SetConsumptionLimit (env : Env) (data : Message) (err : Bool) (w : World)
    (h : data.Type_ = SetConsumptionLimit) :
    readerStep env ⟨data, err⟩ w = some
      { h := { w.h with consumptionLimits := commandedLimit data }
        remoteSki := w.remoteSki
        out := w.out ++ ((env.uclpc.RemoteEntitiesScenarios.map fun s =>
          Effect.write (.uclpcWriteConsumptionLimit s.Entity (commandedLimit data))
            (env.uclpc.WriteConsumptionLimit s.Entity (commandedLimit data)))
          ++ [Effect.sendMessage acknowledge]) } := by
  rw [readerStep_of_dispatch err (dispatch_SetConsumptionLimit env data w h), caseSetConsumptionLimit_eq]
  simp [sendNotification, sendMessage, acknowledge]

/-- The iteration of `reader` for `SetProductionLimit`, in full. -/
theorem readerStep_SetProductionLimit (env : Env) (data : Message) (err : Bool) (w : World)
    (h : data.Type_ = SetProductionLimit) :
    readerStep env ⟨data, err⟩ w = some
      { h := { w.h with productionLimits := commandedLimit data }
        remoteSki := w.remoteSki
        out := w.out ++ ((env.uclpp.RemoteEntitiesScenarios.map fun s =>
          Effect.write (.uclppWriteProductionLimit s.Entity (commandedLimit data))
            (env.uclpp.WriteProductionLimit s.Entity (commandedLimit data)))
          ++ [Effect.sendMessage acknowledge]) } := by
  rw [readerStep_of_dispatch err (dispatch_SetProductionLimit env data w h), caseSetProductionLimit_eq]
  simp [sendNotification, sendMessage, acknowledge]

/-- The iteration of `reader` for `SetConsumptionFailsafeValue`, in full. -/
theorem readerStep_SetConsumptionFailsafeValue (env : Env) (data : Message) (err : Bool) (w : World)
    (h : data.Type_ = SetConsumptionFailsafeValue) :
    readerStep env ⟨data, err⟩ w = some
      { h := { w.h with consumptionFailsafeLimits :=
            { w.h.consumptionFailsafeLimits with Value := data.Value } }
        remoteSki := w.remoteSki
        out := w.out ++ ((env.uclpc.RemoteEntitiesScenarios.map fun s =>
          Effect.write (.uclpcWriteFailsafeConsumptionActivePowerLimit s.Entity (data.Value))
            (env.uclpc.WriteFailsafeConsumptionActivePowerLimit s.Entity (data.Value)))
          ++ [Effect.sendMessage acknowledge]) } := by
  rw [readerStep_of_dispatch err (dispatch_SetConsumptionFailsafeValue env data w h), caseSetConsumptionFailsafeValue_eq]
  simp [sendNotification, sendMessage, acknowledge]

/-- The iteration of `reader` for `SetConsumptionFailsafeDuration`, in full. -/
theorem readerStep_SetConsumptionFailsafeDuration (env : Env) (data : Message) (err : Bool) (w : World)
    (h : data.Type_ = SetConsumptionFailsafeDuration) :
    readerStep env ⟨data, err⟩ w = some
      { h := { w.h with consumptionFailsafeLimits :=
            { w.h.consumptionFailsafeLimits with Duration := commandedDuration data } }
        remoteSki := w.remoteSki
        out := w.out ++ ((env.uclpc.RemoteEntitiesScenarios.map fun s =>
          Effect.write (.uclpcWriteFailsafeDurationMinimum s.Entity (commandedDuration data))
            (env.uclpc.WriteFailsafeDurationMinimum s.Entity (commandedDuration data)))
          ++ [Effect.sendMessage acknowledge]) } := by
  rw [readerStep_of_dispatch err (dispatch_SetConsumptionFailsafeDuration env data w h), caseSetConsumptionFailsafeDuration_eq]
  simp [sendNotification, sendMessage, acknowledge]

/-- The iteration of `reader` for `SetProductionFailsafeValue`, in full. -/
theorem readerStep_SetProductionFailsafeValue (env : Env) (data : Message) (err : Bool) (w : World)
    (h : data.Type_ = SetProductionFailsafeValue) :
    readerStep env ⟨data, err⟩ w = some
      { h := { w.h with productionFailsafeLimits :=
            { w.h.productionFailsafeLimits with Value := data.Value } }
        remoteSki := w.remoteSki
        out := w.out ++ ((env.uclpp.RemoteEntitiesScenarios.map fun s =>
          Effect.write (.uclppWriteFailsafeProductionActivePowerLimit s.Entity (data.Value))
            (env.uclpp.WriteFailsafeProductionActivePowerLimit s.Entity (data.Value)))
          ++ [Effect.sendMessage acknowledge]) } := by
  rw [readerStep_of_dispatch err (dispatch_SetProductionFailsafeValue env data w h), caseSetProductionFailsafeValue_eq]
  simp [sendNotification, sendMessage, acknowledge]

/-- The iteration of `reader` for `SetProductionFailsafeDuration`, in full. -/
theorem readerStep_SetProductionFailsafeDuration (env : Env) (data : Message) (err : Bool) (w : World)
    (h : data.Type_ = SetProductionFailsafeDuration) :
    readerStep env ⟨data, err⟩ w = some
      { h := { w.h with productionFailsafeLimits :=
            { w.h.productionFailsafeLimits with Duration := commandedDuration data } }
        remoteSki := w.remoteSki
        out := w.out ++ ((env.uclpp.RemoteEntitiesScenarios.map fun s =>
          Effect.write (.uclppWriteFailsafeDurationMinimum s.Entity (commandedDuration data))
            (env.uclpp.WriteFailsafeDurationMinimum s.Entity (commandedDuration data)))
          ++ [Effect.sendMessage acknowledge]) } := by
  rw [readerStep_of_dispatch err (dispatch_SetProductionFailsafeDuration env data w h), caseSetProductionFailsafeDuration_eq]
  simp [sendNotification, sendMessage, acknowledge]

theorem deviceWrites_append (a b : List Effect) :
    deviceWrites (a ++ b) = deviceWrites a ++ deviceWrites b := by
  simp [deviceWrites, List.filterMap_append]

theorem deviceWrites_map_write {α : Type} (l : List α) (c : α → DeviceWrite)
    (r : α → Option Nat) :
    deviceWrites (l.map fun s => Effect.write (c s) (r s)) = l.map c := by
  induction l with
  | nil => rfl
  | cons a rest ih =>
    simp only [List.map_cons]
    rw [← ih]
    rfl

/-! ## The connectivity gate -/

/-- C1: an inbound use case event (LPC, LPP, MGCP or MPC, of any kind) from an
identity without an `isConnected` entry, or whose entry is `false`, leaves the
whole state as it was (registry, use case summaries, limit state, active
target) and makes no call at all, so nothing is sent to the UI. -/
theorem gate_discards_event (env : Env) (ski : String) (device : Device) (entity : Entity)
    (w : World)
    (hgate : mapGet w.h.isConnected ski = none ∨ mapGet w.h.isConnected ski = some false) :
    (∀ event, OnLPCEvent env ski device entity event w = some w) ∧
    (∀ event, OnLPPEvent env ski device entity event w = some w) ∧
    (∀ event, OnMGCPEvent env ski device entity event w = some w) ∧
    (∀ event, OnMPCEvent env ski device entity event w = some w) := by
  rcases hgate with h | h
  · refine ⟨?_, ?_, ?_, ?_⟩ <;> intro event
    · simp [OnLPCEvent, h]
    · simp [OnLPPEvent, h]
    · simp [OnMGCPEvent, h]
    · simp [OnMPCEvent, h]
  · refine ⟨?_, ?_, ?_, ?_⟩ <;> intro event
    · simp [OnLPCEvent, h]
    · simp [OnLPPEvent, h]
    · simp [OnMGCPEvent, h]
    · simp [OnMPCEvent, h]

/-- The gate at `ski-B` after its disconnect: one event of each use case is discarded. -/
theorem gate_discards_event_witness :
    mapGet oneOffline.h.isConnected "ski-B" = some false ∧
    OnLPCEvent sampleEnv "ski-B" deviceA entityB .DataUpdateLimit oneOffline = some oneOffline ∧
    OnLPPEvent sampleEnv "ski-B" deviceA entityB .UseCaseSupportUpdate oneOffline
      = some oneOffline ∧
    OnMGCPEvent sampleEnv "ski-B" deviceA entityB .DataUpdatePower oneOffline
      = some oneOffline ∧
    OnMPCEvent sampleEnv "ski-B" deviceA entityB .other oneOffline = some oneOffline :=
  have hall := gate_discards_event sampleEnv "ski-B" deviceA entityB oneOffline
    (Or.inr (by decide))
  ⟨by decide, hall.1 _, hall.2.1 _, hall.2.2.1 _, hall.2.2.2 _⟩

/-! ## The active target and the limit state -/

/-- C2: a value event of LPC or LPP (limit, failsafe value, failsafe duration)
from an identity other than the active target `remoteSki` leaves the six
`LimitState` fields as they were, whatever the device reads return; and the
handlers do return when the identity has a session record or is listed in
`currentRemoteServices` and no nil pointer is dereferenced on the way (every
record can be shown and the device can be presented). -/
theorem limit_state_gated (env : Env) (ski : String) (device : Device) (entity : Entity)
    (w : World) (hne : ski ≠ w.remoteSki) :
    (∀ event w1, event.valueChanged = true →
      OnLPCEvent env ski device entity event w = some w1 → sameLimitState w1.h w.h) ∧
    (∀ event w1, event.valueChanged = true →
      OnLPPEvent env ski device entity event w = some w1 → sameLimitState w1.h w.h) ∧
    (known w ski = true → printable w.h.remoteInfos = true → presentable device = true →
      (∀ event, ∃ w1, OnLPCEvent env ski device entity event w = some w1) ∧
      (∀ event, ∃ w1, OnLPPEvent env ski device entity event w = some w1)) := by
  refine ⟨?_, ?_, fun hknown hw hdev =>
    ⟨fun event => handlerFlow_total (OnLPCEvent_flow env ski device entity event w) hknown hw hdev,
      fun event =>
        handlerFlow_total (OnLPPEvent_flow env ski device entity event w) hknown hw hdev⟩⟩
  · intro event w1 hev hrun
    unfold OnLPCEvent at hrun
    split at hrun
    · split at hrun
      · simp at hrun
      · rename_i w0 hup
        obtain ⟨infos, rfl⟩ := updateEntityInfos_frame hup
        split at hrun
        · simp at hrun
        · rename_i wa hse
          obtain ⟨_, rows, _, rfl⟩ := sendEntityInfo_of_some hse
          split at hrun
          · simp at hrun
          · rename_i wb huc
            unfold updateUseCaseInfos at huc
            split at huc
            · simp only [Option.some.injEq] at huc
              subst huc
              cases event <;> simp [LPCEvent.valueChanged] at hev <;>
                simp [sendUseCaseInfo, sendMessage, hne] at hrun <;>
                (split at hrun <;> simp at hrun <;> subst hrun <;> simp [sameLimitState])
            · simp at huc
    · simp at hrun; subst hrun; simp [sameLimitState]
  · intro event w1 hev hrun
    unfold OnLPPEvent at hrun
    split at hrun
    · split at hrun
      · simp at hrun
      · rename_i w0 hup
        obtain ⟨infos, rfl⟩ := updateEntityInfos_frame hup
        split at hrun
        · simp at hrun
        · rename_i wa hse
          obtain ⟨_, rows, _, rfl⟩ := sendEntityInfo_of_some hse
          split at hrun
          · simp at hrun
          · rename_i wb huc
            unfold updateUseCaseInfos at huc
            split at huc
            · simp only [Option.some.injEq] at huc
              subst huc
              cases event <;> simp [LPPEvent.valueChanged] at hev <;>
                simp [sendUseCaseInfo, sendMessage, hne] at hrun <;>
                (split at hrun <;> simp at hrun <;> subst hrun <;> simp [sameLimitState])
            · simp at huc
    · simp at hrun; subst hrun; simp [sameLimitState]

/-- The limit event of `ski-A` while `ski-B` is the active target: the handler
returns and the limit state is the one before. -/
theorem limit_state_gated_witness :
    "ski-A" ≠ twoDevices.remoteSki ∧
    mapGet twoDevices.h.isConnected "ski-A" = some true ∧
    sampleEnv.uclpc.ConsumptionLimit entityA = some ⟨60000000000, true, 1000⟩ ∧
    ∃ w1, OnLPCEvent sampleEnv "ski-A" deviceA entityA .DataUpdateLimit twoDevices = some w1 ∧
      sameLimitState w1.h twoDevices.h := by
  have hall := limit_state_gated sampleEnv "ski-A" deviceA entityA twoDevices (by decide)
  obtain ⟨w1, hw1⟩ := (hall.2.2 (by decide) (by decide) (by decide)).1 .DataUpdateLimit
  exact ⟨by decide, by decide, rfl, w1, hw1, hall.1 .DataUpdateLimit w1 rfl hw1⟩

/-- C4, evaluated: `ski-A` is not the active target, yet its capability event
runs `readData`, which overwrites the consumption limit, the failsafe value
and duration and the nominal maximum with the values read from `ski-A`. -/
theorem capability_event_overwrites_limit_state :
    "ski-A" ≠ twoDevices.remoteSki ∧
    mapGet twoDevices.h.isConnected "ski-A" = some true ∧
    twoDevices.h.consumptionLimits = ⟨0, false, 0⟩ ∧
    twoDevices.h.consumptionFailsafeLimits = ⟨0, 0⟩ ∧
    twoDevices.h.consumptionNominalMax = 0 ∧
    (OnLPCEvent sampleEnv "ski-A" deviceA entityA .UseCaseSupportUpdate twoDevices).map
      (fun w1 => (w1.h.consumptionLimits, w1.h.consumptionFailsafeLimits,
        w1.h.consumptionNominalMax))
      = some (⟨60000000000, true, 1000⟩, ⟨4200, 7200000000000⟩, 11000) := by
  decide

/-! ## Capability sets only grow -/

theorem step_hasUseCase {op : Op} {w w1 : World} (hstep : step op w = some w1)
    {id tag : String} (hhas : hasUseCase w id tag) : hasUseCase w1 id tag := by
  have via : ∀ {ski : String} {device : Device} {uc : String},
      (∃ w0, (w0 = w ∨ updateEntityInfos ski device uc w = some w0) ∧
        w1.h.remoteInfos = w0.h.remoteInfos) → hasUseCase w1 id tag := by
    rintro ski device uc ⟨w0, hw0 | hw0, heq⟩
    · subst hw0
      exact hasUseCase_of_remoteInfos heq hhas
    · exact hasUseCase_of_remoteInfos heq (updateEntityInfos_hasUseCase hw0 hhas)
  cases op with
  | RemoteSKIConnected ski =>
    simp only [step, Option.some.injEq] at hstep
    subst hstep
    exact hasUseCase_of_remoteInfos (by simp [RemoteSKIConnected, sendText, sendMessage]) hhas
  | RemoteSKIDisconnected ski =>
    simp only [step, Option.some.injEq] at hstep
    subst hstep
    exact hasUseCase_of_remoteInfos
      (by simp [RemoteSKIDisconnected, sendNotification, sendMessage]) hhas
  | VisibleRemoteServicesUpdated entries =>
    simp only [step, Option.some.injEq] at hstep
    subst hstep
    refine hasUseCase_of_remoteInfos ?_ hhas
    have hfold := foldl_sameRegistry
      (fun w (element : RemoteService) =>
        { w with out := w.out ++ [Effect.SetTrusted element.Ski] })
      (fun w a => by simp [sameRegistry]) entries w
    simpa [VisibleRemoteServicesUpdated, sendNotification, sendMessage] using hfold.2.1
  | OnLPCEvent env ski device entity event =>
    exact via (handlerFlow_remoteInfos (OnLPCEvent_flow env ski device entity event w) hstep)
  | OnLPPEvent env ski device entity event =>
    exact via (handlerFlow_remoteInfos (OnLPPEvent_flow env ski device entity event w) hstep)
  | OnMGCPEvent env ski device entity event =>
    exact via (handlerFlow_remoteInfos (OnMGCPEvent_flow env ski device entity event w) hstep)
  | OnMPCEvent env ski device entity event =>
    exact via (handlerFlow_remoteInfos (OnMPCEvent_flow env ski device entity event w) hstep)
  | reader env frame =>
    exact hasUseCase_of_remoteInfos (readerStep_sameMaps hstep).2.1 hhas

theorem run_hasUseCase {ops : List Op} {w w1 : World} (hrun : run ops w = some w1)
    {id tag : String} (hhas : hasUseCase w id tag) : hasUseCase w1 id tag := by
  induction ops generalizing w with
  | nil =>
    simp only [run, Option.some.injEq] at hrun
    subst hrun
    exact hhas
  | cons op rest ih =>
    unfold run at hrun
    split at hrun
    · rename_i w0 hstep
      exact ih hrun (step_hasUseCase hstep hhas)
    · simp at hrun

/-- C5: a use case tag listed in the session record of an identity is still
listed after any further sequence of calls (connects, disconnects, discovery
updates, events of the four use cases, UI commands) that runs to its end; and
`RemoteSKIDisconnected id` changes `isConnected[id]` and nothing else of the
state: the entries of other identities, `remoteInfos`, `useCaseInfos` and the
active target are as before. -/
theorem capability_monotone (ops : List Op) (w w1 : World) (id tag : String)
    (hhas : hasUseCase w id tag) (hrun : run ops w = some w1) :
    hasUseCase w1 id tag ∧
    (RemoteSKIDisconnected id w).h
      = { w.h with isConnected := mapSet w.h.isConnected id false } ∧
    mapGet (RemoteSKIDisconnected id w).h.isConnected id = some false ∧
    (∀ k, k ≠ id →
      mapGet (RemoteSKIDisconnected id w).h.isConnected k = mapGet w.h.isConnected k) ∧
    (RemoteSKIDisconnected id w).h.remoteInfos = w.h.remoteInfos ∧
    (RemoteSKIDisconnected id w).h.useCaseInfos = w.h.useCaseInfos ∧
    (RemoteSKIDisconnected id w).remoteSki = w.remoteSki ∧
    hasUseCase (RemoteSKIDisconnected id w) id tag := by
  refine ⟨run_hasUseCase hrun hhas, rfl, ?_, ?_, rfl, rfl, rfl, ?_⟩
  · exact mapGet_mapSet_same _ _ _
  · intro k hk
    exact mapGet_mapSet_other _ _ _ _ hk
  · exact hasUseCase_of_remoteInfos rfl hhas

/-- The tag `LPC` of `ski-A` survives a disconnect, a reconnect, discarded and
accepted events and a command; the record then lists `LPC` and `LPP`. -/
theorem capability_monotone_witness :
    hasUseCase withRecordA "ski-A" "LPC" ∧
    run sampleOps withRecordA = some afterCycle ∧
    (mapGet afterCycle.h.remoteInfos "ski-A").map (fun info => info.UseCases)
      = some ["LPC", "LPP"] ∧
    hasUseCase afterCycle "ski-A" "LPC" :=
  have hhas : hasUseCase withRecordA "ski-A" "LPC" :=
    ⟨⟨⟨"ski-A", "a"⟩, some deviceA, ["LPC"]⟩, by decide, by decide⟩
  have hrun : run sampleOps withRecordA = some afterCycle := by decide
  ⟨hhas, hrun, by decide,
    (capability_monotone sampleOps withRecordA afterCycle "ski-A" "LPC" hhas hrun).1⟩

/-! ## Seconds and durations -/

/-- C8, as stated, fails: with every write failing, `SetProductionFailsafeDuration`
with `Value = 9223372037` leaves the duration `-9223372036709551616` ns in the
limit state, and with `Value = 10^19` (beyond int64) it leaves `0`; neither
is the commanded number of seconds. Both commands make their one write. -/
theorem writes_no_rollback_counterexample :
    (∀ entity value, sampleEnv.uclpp.WriteFailsafeDurationMinimum entity value = none) ∧
    (readerStep sampleEnv
      ⟨{ Type_ := SetProductionFailsafeDuration, Value := 9223372037 }, false⟩
      twoDevices).map
        (fun w1 => (w1.h.productionFailsafeLimits.Duration, emitted twoDevices w1))
      = some (-9223372036709551616,
          [Effect.write (.uclppWriteFailsafeDurationMinimum entityB (-9223372036709551616)) none,
           Effect.sendMessage acknowledge]) ∧
    (-9223372036709551616 : Int) ≠ seconds 9223372037 ∧
    (readerStep sampleEnv
      ⟨{ Type_ := SetProductionFailsafeDuration, Value := 10000000000000000000 }, false⟩
      twoDevices).map
        (fun w1 => (w1.h.productionFailsafeLimits.Duration, emitted twoDevices w1))
      = some (0,
          [Effect.write (.uclppWriteFailsafeDurationMinimum entityB 0) none,
           Effect.sendMessage acknowledge]) ∧
    (0 : Int) ≠ seconds 10000000000000000000 := by
  refine ⟨fun _ _ => rfl, ?_, ?_, ?_, ?_⟩ <;> decide

/-- C8, amended: for each of the six `Set*` commands and whatever the
collaborator answers to the writes (success or error, for each write
separately), the command returns, the device writes of the iteration are
exactly one write per registered entity, in list order, each carrying the
value stored in the limit state, and that stored value is the commanded one:
always for the failsafe values and for `IsActive` and `Value` of a limit, and
for a duration of `n` whole seconds whenever `|n| ≤ 9223372036`. -/
theorem writes_independent_no_rollback (env : Env) (data : Message) (err : Bool) (w : World) :
    (data.Type_ = SetConsumptionLimit →
      ∃ w1, readerStep env ⟨data, err⟩ w = some w1 ∧
        w1.out = w.out ++ emitted w w1 ∧
        deviceWrites (emitted w w1) =
          (env.uclpc.RemoteEntitiesScenarios.map fun s =>
            DeviceWrite.uclpcWriteConsumptionLimit s.Entity w1.h.consumptionLimits) ∧
        w1.h.consumptionLimits.IsActive = data.Limit.IsActive ∧
        w1.h.consumptionLimits.Value = data.Limit.Value ∧
        (-9223372036 ≤ data.Limit.Duration → data.Limit.Duration ≤ 9223372036 →
          w1.h.consumptionLimits.Duration = seconds data.Limit.Duration)) ∧
    (data.Type_ = SetProductionLimit →
      ∃ w1, readerStep env ⟨data, err⟩ w = some w1 ∧
        w1.out = w.out ++ emitted w w1 ∧
        deviceWrites (emitted w w1) =
          (env.uclpp.RemoteEntitiesScenarios.map fun s =>
            DeviceWrite.uclppWriteProductionLimit s.Entity w1.h.productionLimits) ∧
        w1.h.productionLimits.IsActive = data.Limit.IsActive ∧
        w1.h.productionLimits.Value = data.Limit.Value ∧
        (-9223372036 ≤ data.Limit.Duration → data.Limit.Duration ≤ 9223372036 →
          w1.h.productionLimits.Duration = seconds data.Limit.Duration)) ∧
    (data.Type_ = SetConsumptionFailsafeValue →
      ∃ w1, readerStep env ⟨data, err⟩ w = some w1 ∧
        w1.out = w.out ++ emitted w w1 ∧
        deviceWrites (emitted w w1) =
          (env.uclpc.RemoteEntitiesScenarios.map fun s =>
            DeviceWrite.uclpcWriteFailsafeConsumptionActivePowerLimit s.Entity data.Value) ∧
        w1.h.consumptionFailsafeLimits.Value = data.Value) ∧
    (data.Type_ = SetConsumptionFailsafeDuration →
      ∃ w1, readerStep env ⟨data, err⟩ w = some w1 ∧
        w1.out = w.out ++ emitted w w1 ∧
        deviceWrites (emitted w w1) =
          (env.uclpc.RemoteEntitiesScenarios.map fun s =>
            DeviceWrite.uclpcWriteFailsafeDurationMinimum s.Entity w1.h.consumptionFailsafeLimits.Duration) ∧
        ∀ n : Int, data.Value = (n : ℚ) → -9223372036 ≤ n → n ≤ 9223372036 →
          w1.h.consumptionFailsafeLimits.Duration = seconds n) ∧
    (data.Type_ = SetProductionFailsafeValue →
      ∃ w1, readerStep env ⟨data, err⟩ w = some w1 ∧
        w1.out = w.out ++ emitted w w1 ∧
        deviceWrites (emitted w w1) =
          (env.uclpp.RemoteEntitiesScenarios.map fun s =>
            DeviceWrite.uclppWriteFailsafeProductionActivePowerLimit s.Entity data.Value) ∧
        w1.h.productionFailsafeLimits.Value = data.Value) ∧
    (data.Type_ = SetProductionFailsafeDuration →
      ∃ w1, readerStep env ⟨data, err⟩ w = some w1 ∧
        w1.out = w.out ++ emitted w w1 ∧
        deviceWrites (emitted w w1) =
          (env.uclpp.RemoteEntitiesScenarios.map fun s =>
            DeviceWrite.uclppWriteFailsafeDurationMinimum s.Entity w1.h.productionFailsafeLimits.Duration) ∧
        ∀ n : Int, data.Value = (n : ℚ) → -9223372036 ≤ n → n ≤ 9223372036 →
          w1.h.productionFailsafeLimits.Duration = seconds n) := by
  have hack : deviceWrites [Effect.sendMessage acknowledge] = [] := rfl
  have hem : ∀ (es : List Effect) (h : controlbox) (rs : String),
      emitted w { h := h, remoteSki := rs, out := w.out ++ es } = es :=
    fun es h rs => emitted_of_out rfl
  refine ⟨?_, ?_, ?_, ?_, ?_, ?_⟩
  · intro hty
    refine ⟨_, readerStep_SetConsumptionLimit env data err w hty, ?_, ?_, ?_⟩
    · rw [hem]
    · rw [hem, deviceWrites_append, hack, List.append_nil]
      exact deviceWrites_map_write _ _ _
    · exact ⟨rfl, rfl, fun hlo hhi => mulDuration_seconds hlo hhi⟩
  · intro hty
    refine ⟨_, readerStep_SetProductionLimit env data err w hty, ?_, ?_, ?_⟩
    · rw [hem]
    · rw [hem, deviceWrites_append, hack, List.append_nil]
      exact deviceWrites_map_write _ _ _
    · exact ⟨rfl, rfl, fun hlo hhi => mulDuration_seconds hlo hhi⟩
  · intro hty
    refine ⟨_, readerStep_SetConsumptionFailsafeValue env data err w hty, ?_, ?_, ?_⟩
    · rw [hem]
    · rw [hem, deviceWrites_append, hack, List.append_nil]
      exact deviceWrites_map_write _ _ _
    · rfl
  · intro hty
    refine ⟨_, readerStep_SetConsumptionFailsafeDuration env data err w hty, ?_, ?_, ?_⟩
    · rw [hem]
    · rw [hem, deviceWrites_append, hack, List.append_nil]
      exact deviceWrites_map_write _ _ _
    · intro n hval hlo hhi
      show commandedDuration data = seconds n
      rw [commandedDuration, hval, toDuration_intCast hlo hhi]
      exact mulDuration_seconds hlo hhi
  · intro hty
    refine ⟨_, readerStep_SetProductionFailsafeValue env data err w hty, ?_, ?_, ?_⟩
    · rw [hem]
    · rw [hem, deviceWrites_append, hack, List.append_nil]
      exact deviceWrites_map_write _ _ _
    · rfl
  · intro hty
    refine ⟨_, readerStep_SetProductionFailsafeDuration env data err w hty, ?_, ?_, ?_⟩
    · rw [hem]
    · rw [hem, deviceWrites_append, hack, List.append_nil]
      exact deviceWrites_map_write _ _ _
    · intro n hval hlo hhi
      show commandedDuration data = seconds n
      rw [commandedDuration, hval, toDuration_intCast hlo hhi]
      exact mulDuration_seconds hlo hhi

/-- The failsafe value command with the write to `ski-A` failing: the write to
`ski-B` is still made and the value is stored. -/
theorem writes_independent_no_rollback_witness :
    ∃ w1, readerStep sampleEnv
        ⟨{ Type_ := SetConsumptionFailsafeValue, Value := 1500 }, false⟩ twoDevices = some w1 ∧
      w1.out = twoDevices.out ++
        [Effect.write (.uclpcWriteFailsafeConsumptionActivePowerLimit entityA 1500) none,
         Effect.write (.uclpcWriteFailsafeConsumptionActivePowerLimit entityB 1500) (some 8),
         Effect.sendMessage acknowledge] ∧
      deviceWrites (emitted twoDevices w1) =
        (sampleEnv.uclpc.RemoteEntitiesScenarios.map fun s =>
          DeviceWrite.uclpcWriteFailsafeConsumptionActivePowerLimit s.Entity 1500) ∧
      w1.h.consumptionFailsafeLimits.Value = 1500 := by
  obtain ⟨w1, hrun, _, hwrites, hvalue⟩ := (writes_independent_no_rollback sampleEnv
    { Type_ := SetConsumptionFailsafeValue, Value := 1500 } false twoDevices).2.2.1 rfl
  have hval : readerStep sampleEnv
      ⟨{ Type_ := SetConsumptionFailsafeValue, Value := 1500 }, false⟩ twoDevices
      = some withFailsafe := by decide
  have hw1 : w1 = withFailsafe := by
    rw [hval] at hrun
    exact (Option.some.inj hrun).symm
  subst hw1
  exact ⟨_, hrun, by decide, hwrites, hvalue⟩

/-- C9: each `Set*` command returns and changes its own field of the limit
state and nothing else of the state: `SetConsumptionLimit` the consumption
limit, `SetConsumptionFailsafeValue` the value and
`SetConsumptionFailsafeDuration` the duration of the consumption failsafe,
likewise for production; all other fields of `controlbox` and the active
target are as before. So the commands `SetConsumptionFailsafeValue(1500)` and
`SetConsumptionFailsafeDuration(60)` in sequence leave the failsafe
`{1500, 60 s}` and make, per registered entity, one value write carrying 1500
and later one duration write carrying 60 s, each batch closed by its own
acknowledge. -/
theorem set_command_changes_own_field (env : Env) (data : Message) (err : Bool) (w : World) :
    (data.Type_ = SetConsumptionLimit →
      ∃ w1, readerStep env ⟨data, err⟩ w = some w1 ∧
        w1.h = { w.h with consumptionLimits := commandedLimit data } ∧
        w1.remoteSki = w.remoteSki) ∧
    (data.Type_ = SetProductionLimit →
      ∃ w1, readerStep env ⟨data, err⟩ w = some w1 ∧
        w1.h = { w.h with productionLimits := commandedLimit data } ∧
        w1.remoteSki = w.remoteSki) ∧
    (data.Type_ = SetConsumptionFailsafeValue →
      ∃ w1, readerStep env ⟨data, err⟩ w = some w1 ∧
        w1.h = { w.h with consumptionFailsafeLimits :=
          { w.h.consumptionFailsafeLimits with Value := data.Value } } ∧
        w1.remoteSki = w.remoteSki) ∧
    (data.Type_ = SetConsumptionFailsafeDuration →
      ∃ w1, readerStep env ⟨data, err⟩ w = some w1 ∧
        w1.h = { w.h with consumptionFailsafeLimits :=
          { w.h.consumptionFailsafeLimits with Duration := commandedDuration data } } ∧
        w1.remoteSki = w.remoteSki) ∧
    (data.Type_ = SetProductionFailsafeValue →
      ∃ w1, readerStep env ⟨data, err⟩ w = some w1 ∧
        w1.h = { w.h with productionFailsafeLimits :=
          { w.h.productionFailsafeLimits with Value := data.Value } } ∧
        w1.remoteSki = w.remoteSki) ∧
    (data.Type_ = SetProductionFailsafeDuration →
      ∃ w1, readerStep env ⟨data, err⟩ w = some w1 ∧
        w1.h = { w.h with productionFailsafeLimits :=
          { w.h.productionFailsafeLimits with Duration := commandedDuration data } } ∧
        w1.remoteSki = w.remoteSki) ∧
    (∃ w1 w2,
      readerStep env ⟨{ Type_ := SetConsumptionFailsafeValue, Value := 1500 }, false⟩ w
        = some w1 ∧
      readerStep env ⟨{ Type_ := SetConsumptionFailsafeDuration, Value := 60 }, false⟩ w1
        = some w2 ∧
      w2.h.consumptionFailsafeLimits = ⟨1500, 60000000000⟩ ∧
      w2.out = w.out ++
        ((env.uclpc.RemoteEntitiesScenarios.map fun s =>
          Effect.write (.uclpcWriteFailsafeConsumptionActivePowerLimit s.Entity 1500)
            (env.uclpc.WriteFailsafeConsumptionActivePowerLimit s.Entity 1500))
        ++ [Effect.sendMessage acknowledge]
        ++ (env.uclpc.RemoteEntitiesScenarios.map fun s =>
          Effect.write (.uclpcWriteFailsafeDurationMinimum s.Entity 60000000000)
            (env.uclpc.WriteFailsafeDurationMinimum s.Entity 60000000000))
        ++ [Effect.sendMessage acknowledge])) := by
  refine ⟨?_, ?_, ?_, ?_, ?_, ?_, ?_⟩
  · exact fun hty => ⟨_, readerStep_SetConsumptionLimit env data err w hty, rfl, rfl⟩
  · exact fun hty => ⟨_, readerStep_SetProductionLimit env data err w hty, rfl, rfl⟩
  · exact fun hty => ⟨_, readerStep_SetConsumptionFailsafeValue env data err w hty, rfl, rfl⟩
  · exact fun hty => ⟨_, readerStep_SetConsumptionFailsafeDuration env data err w hty, rfl, rfl⟩
  · exact fun hty => ⟨_, readerStep_SetProductionFailsafeValue env data err w hty, rfl, rfl⟩
  · exact fun hty => ⟨_, readerStep_SetProductionFailsafeDuration env data err w hty, rfl, rfl⟩
  · have hd : commandedDuration { Type_ := SetConsumptionFailsafeDuration, Value := 60 }
        = 60000000000 := by decide
    refine ⟨_, _,
      readerStep_SetConsumptionFailsafeValue env
        { Type_ := SetConsumptionFailsafeValue, Value := 1500 } false w rfl,
      readerStep_SetConsumptionFailsafeDuration env
        { Type_ := SetConsumptionFailsafeDuration, Value := 60 } false _ rfl, ?_, ?_⟩
    · simp [hd]
    · simp [hd]

/-- The failsafe duration command at `twoDevices`: only the duration of the
consumption failsafe changes. -/
theorem set_command_changes_own_field_witness :
    ∃ w1, readerStep sampleEnv
        ⟨{ Type_ := SetConsumptionFailsafeDuration, Value := 60 }, false⟩ twoDevices = some w1 ∧
      w1.h = { twoDevices.h with consumptionFailsafeLimits := ⟨0, 60000000000⟩ } ∧
      w1.remoteSki = "ski-B" := by
  obtain ⟨w1, hrun, hh, hski⟩ := (set_command_changes_own_field sampleEnv
    { Type_ := SetConsumptionFailsafeDuration, Value := 60 } false twoDevices).2.2.2.1 rfl
  exact ⟨w1, hrun, hh.trans (by decide), hski.trans (by decide)⟩

/-! ## The acknowledge -/

/-- A step that returns keeps every record showable: a handler that stored a
record has also run `sendEntityInfo` over all records. -/
theorem step_printable {op : Op} {w w1 : World} (hstep : step op w = some w1)
    (hw : printable w.h.remoteInfos = true) : printable w1.h.remoteInfos = true := by
  cases op with
  | RemoteSKIConnected ski =>
    simp only [step, Option.some.injEq] at hstep
    subst hstep
    simpa [RemoteSKIConnected, sendText, sendMessage] using hw
  | RemoteSKIDisconnected ski =>
    simp only [step, Option.some.injEq] at hstep
    subst hstep
    simpa [RemoteSKIDisconnected, sendNotification, sendMessage] using hw
  | VisibleRemoteServicesUpdated entries =>
    simp only [step, Option.some.injEq] at hstep
    subst hstep
    have hfold := foldl_sameRegistry
      (fun w (element : RemoteService) =>
        { w with out := w.out ++ [Effect.SetTrusted element.Ski] })
      (fun w a => by simp [sameRegistry]) entries w
    have hri : (VisibleRemoteServicesUpdated entries w).h.remoteInfos = w.h.remoteInfos := by
      simpa [VisibleRemoteServicesUpdated, sendNotification, sendMessage] using hfold.2.1
    rw [hri]
    exact hw
  | OnLPCEvent env ski device entity event =>
    exact handlerFlow_printable (OnLPCEvent_flow env ski device entity event w) hstep hw
  | OnLPPEvent env ski device entity event =>
    exact handlerFlow_printable (OnLPPEvent_flow env ski device entity event w) hstep hw
  | OnMGCPEvent env ski device entity event =>
    exact handlerFlow_printable (OnMGCPEvent_flow env ski device entity event w) hstep hw
  | OnMPCEvent env ski device entity event =>
    exact handlerFlow_printable (OnMPCEvent_flow env ski device entity event w) hstep hw
  | reader env frame =>
    rw [(readerStep_sameMaps hstep).2.1]
    exact hw

theorem run_printable {ops : List Op} {w w1 : World} (hrun : run ops w = some w1)
    (hw : printable w.h.remoteInfos = true) : printable w1.h.remoteInfos = true := by
  induction ops generalizing w with
  | nil =>
    simp only [run, Option.some.injEq] at hrun
    subst hrun
    exact hw
  | cons op rest ih =>
    unfold run at hrun
    split at hrun
    · rename_i w0 hstep
      exact ih hrun (step_printable hstep hw)
    · simp at hrun

/-- In every state a run reaches from startup, every record can be shown. -/
theorem printable_of_reachable {ops : List Op} {w : World} (hrun : run ops initial = some w) :
    printable w.h.remoteInfos = true :=
  run_printable hrun (by decide)

/-- C10: one iteration of `reader`, for a frame with any `Type` (with or without
a case in the `switch`), returns and sends exactly one `Acknowledge` message,
and it is the last call of the iteration: the calls made are some calls that
are not `Acknowledge` messages, followed by the acknowledge. This holds in
every state a run reaches from startup, and more generally in every state
whose records can all be shown, and for every command other than
`GetEntityInfos` in any state at all. -/
theorem acknowledge_after_every_command (env : Env) (frame : Frame) (w : World)
    (hw : (∃ ops, run ops initial = some w) ∨ printable w.h.remoteInfos = true ∨
      frame.data.Type_ ≠ GetEntityInfos) :
    ∃ w1, readerStep env frame w = some w1 ∧
      ∃ pre, w1.out = w.out ++ pre ++ [Effect.sendMessage acknowledge] ∧
        (∀ e ∈ pre, notAcknowledge e) ∧
        emitted w w1 = pre ++ [Effect.sendMessage acknowledge] ∧
        (uiTypes (emitted w w1)).count Acknowledge = 1 ∧
        (emitted w w1).getLast? = some (Effect.sendMessage acknowledge) := by
  have hshow : frame.data.Type_ = GetEntityInfos → printable w.h.remoteInfos = true := by
    intro hty
    rcases hw with ⟨ops, hrun⟩ | hp | hne
    · exact printable_of_reachable hrun
    · exact hp
    · exact absurd hty hne
  obtain ⟨w1, hw1⟩ := readerStep_returns env frame w hshow
  obtain ⟨pre, hout, hno⟩ := out_readerStep hw1
  have hem : emitted w w1 = pre ++ [Effect.sendMessage acknowledge] :=
    emitted_of_out (by rw [hout, List.append_assoc])
  refine ⟨w1, hw1, pre, hout, hno, hem, ?_, ?_⟩
  · rw [hem]
    have hcount : (uiTypes pre).count Acknowledge = 0 := by
      rw [List.count_eq_zero]
      intro hmem
      simp only [uiTypes, List.mem_filterMap] at hmem
      obtain ⟨e, he, hty⟩ := hmem
      cases e with
      | sendMessage m =>
        simp only [Option.some.injEq] at hty
        exact hno _ he m rfl hty
      | write call result => simp at hty
      | RegisterRemoteSKI ski => simp at hty
      | SetTrusted ski => simp at hty
    simp [uiTypes, List.filterMap_append, acknowledge] at hcount ⊢
    exact hcount
  · rw [hem]
    simp

/-- The command `GetEntityInfos` after the first event of `ski-A`: the entity
summary is sent, then the acknowledge. -/
theorem acknowledge_after_every_command_witness :
    run sampleHistory initial = some afterHistory ∧
    ∃ w1, readerStep sampleEnv ⟨{ Type_ := GetEntityInfos }, false⟩ afterHistory = some w1 ∧
      uiTypes (emitted afterHistory w1) = [GetEntityInfos, Acknowledge] := by
  have hrun : run sampleHistory initial = some afterHistory := by decide
  obtain ⟨w1, hw1, _⟩ := acknowledge_after_every_command sampleEnv
    ⟨{ Type_ := GetEntityInfos }, false⟩ afterHistory (Or.inl ⟨sampleHistory, hrun⟩)
  have hval : readerStep sampleEnv ⟨{ Type_ := GetEntityInfos }, false⟩ afterHistory
      = some ((readerStep sampleEnv ⟨{ Type_ := GetEntityInfos }, false⟩ afterHistory).getD
          afterHistory) := by decide
  refine ⟨hrun, w1, hw1, ?_⟩
  rw [hval] at hw1
  rw [← Option.some.inj hw1]
  decide

/-! ## Malformed frames, selection and the registry update -/

/-- In `SelectService` for an identity without record whose connection flag is
absent or `false`, the iteration of `reader` changes the active target, asks
for the registration and acknowledges. -/
theorem readerStep_SelectService_unconnected (env : Env) (data : Message) (err : Bool)
    (w : World) (hty : data.Type_ = SelectService)
    (hrec : mapGet w.h.remoteInfos data.Text = none)
    (hconn : mapGet w.h.isConnected data.Text = none ∨
      mapGet w.h.isConnected data.Text = some false) :
    readerStep env ⟨data, err⟩ w = some
      { h := w.h, remoteSki := data.Text
        out := w.out ++ [Effect.RegisterRemoteSKI data.Text, Effect.sendMessage acknowledge] } := by
  have hd : dispatch env data w = some (caseSelectService env data w) := by
    simp [dispatch, hty]
  rw [readerStep_of_dispatch err hd]
  rcases hconn with h | h <;>
    simp [caseSelectService, hrec, h, sendNotification, sendMessage, acknowledge]

/-- C11, evaluated: `reader` does not look at the error of `json.Unmarshal`. For a
payload that is not JSON it runs the `switch` on the zero `Message`, which has
no case, and sends the acknowledge; for a payload with a type error it runs
the command of the decoded `Type` with the fields decoded so far: the failsafe
value 1500 is replaced by 0, 0 is written to both registered entities, and
the acknowledge is sent. -/
theorem malformed_frame_is_processed :
    frameNotJSON.err = true ∧
    readerStep sampleEnv frameNotJSON withFailsafe = some
      { withFailsafe with out := withFailsafe.out ++ [Effect.sendMessage acknowledge] } ∧
    frameTypeError.err = true ∧
    withFailsafe.h.consumptionFailsafeLimits.Value = 1500 ∧
    (readerStep sampleEnv frameTypeError withFailsafe).map
      (fun w1 => w1.h.consumptionFailsafeLimits.Value) = some 0 ∧
    (readerStep sampleEnv frameTypeError withFailsafe).map (fun w1 => w1.out)
      = some (withFailsafe.out ++
        [Effect.write (.uclpcWriteFailsafeConsumptionActivePowerLimit entityA 0) none,
         Effect.write (.uclpcWriteFailsafeConsumptionActivePowerLimit entityB 0) (some 8),
         Effect.sendMessage acknowledge]) := by
  decide

/-- C12: `SelectService(Text = s)` for an identity `s` without session record
whose connection flag is absent or `false` returns, sets the active target to
`s` and makes exactly two calls, one `RegisterRemoteSKI(s)` and the
acknowledge; the `controlbox` value, and with it the limit state, is as before,
and no answer of the use case collaborators enters the result (no value is
pulled). -/
theorem select_unconnected_registers (env : Env) (data : Message) (err : Bool) (w : World)
    (hty : data.Type_ = SelectService)
    (hrec : mapGet w.h.remoteInfos data.Text = none)
    (hconn : mapGet w.h.isConnected data.Text = none ∨
      mapGet w.h.isConnected data.Text = some false) :
    ∃ w1, readerStep env ⟨data, err⟩ w = some w1 ∧
      w1.remoteSki = data.Text ∧
      w1.out = w.out ++ [Effect.RegisterRemoteSKI data.Text, Effect.sendMessage acknowledge] ∧
      w1.h = w.h ∧
      sameLimitState w1.h w.h ∧
      ∀ env2, readerStep env2 ⟨data, err⟩ w = some w1 := by
  refine ⟨_, readerStep_SelectService_unconnected env data err w hty hrec hconn,
    rfl, rfl, rfl, by simp [sameLimitState], ?_⟩
  intro env2
  exact readerStep_SelectService_unconnected env2 data err w hty hrec hconn

/-- The command `SelectService("ski-C")` at `twoDevices`, where `ski-C` never connected. -/
theorem select_unconnected_registers_witness :
    mapGet twoDevices.h.remoteInfos "ski-C" = none ∧
    mapGet twoDevices.h.isConnected "ski-C" = none ∧
    ∃ w1, readerStep sampleEnv ⟨{ Type_ := SelectService, Text := "ski-C" }, false⟩
        twoDevices = some w1 ∧
      w1.remoteSki = "ski-C" ∧
      w1.out = twoDevices.out ++
        [Effect.RegisterRemoteSKI "ski-C", Effect.sendMessage acknowledge] ∧
      w1.h = twoDevices.h := by
  obtain ⟨w1, hrun, hski, hout, hh, _⟩ := select_unconnected_registers sampleEnv
    { Type_ := SelectService, Text := "ski-C" } false twoDevices rfl (by decide)
    (Or.inl (by decide))
  exact ⟨by decide, by decide, w1, hrun, hski, hout, hh⟩

/-- When no element satisfies `f`, `IndexFunc` is `-1`. -/
theorem IndexFunc_of_not_any {α : Type} (s : List α) (f : α → Bool) (h : s.any f = false) :
    IndexFunc s f = -1 := by
  induction s with
  | nil => rfl
  | cons x rest ih =>
    have hx : f x = false := by
      cases hfx : f x with
      | false => rfl
      | true => simp [hfx] at h
    have hrest : rest.any f = false := by simpa [hx] using h
    simp [IndexFunc, hx, ih hrest]

/-- For an identity with neither a session record nor an entry in
`currentRemoteServices`, `updateEntityInfos` panics. -/
theorem updateEntityInfos_unknown (ski : String) (device : Device) (uc : String) (w : World)
    (hknown : known w ski = false) : updateEntityInfos ski device uc w = none := by
  have hrec : mapGet w.h.remoteInfos ski = none := by
    cases hget : mapGet w.h.remoteInfos ski with
    | none => rfl
    | some info => simp [known, hget] at hknown
  have hdisc : w.h.currentRemoteServices.any (fun v => v.Ski == ski) = false := by
    simpa [known, hrec, discovered] using hknown
  unfold updateEntityInfos
  rw [hrec]
  dsimp only
  rw [IndexFunc_of_not_any _ _ hdisc]
  rfl

/-- With a session record that already lists the tag, `updateEntityInfos`
changes nothing: the new device handle is not stored. -/
theorem updateEntityInfos_tag_present (ski : String) (device : Device) (uc : String)
    (w : World) (info : RemoteInfo) (hrec : mapGet w.h.remoteInfos ski = some info)
    (htag : uc ∈ info.UseCases) : updateEntityInfos ski device uc w = some w := by
  unfold updateEntityInfos
  rw [hrec]
  simp [htag]

/-- With a session record that does not list the tag, `updateEntityInfos` stores
the new device handle and appends the tag. -/
theorem updateEntityInfos_tag_absent (ski : String) (device : Device) (uc : String)
    (w : World) (info : RemoteInfo) (hrec : mapGet w.h.remoteInfos ski = some info)
    (htag : uc ∉ info.UseCases) :
    ∃ w1, updateEntityInfos ski device uc w = some w1 ∧
      mapGet w1.h.remoteInfos ski =
        some { Service := info.Service, Device := some device, UseCases := info.UseCases ++ [uc] } := by
  unfold updateEntityInfos
  rw [hrec]
  simp [htag, mapGet_mapSet_same]

/-- C13, evaluated: `ski-X` is connected, has no session record and is in no
discovery list; `updateEntityInfos` then indexes `currentRemoteServices` at
`-1` and panics, and so does the handler of the first event of `ski-X`. -/
theorem undiscovered_identity_panics :
    mapGet undiscoveredConnected.h.isConnected "ski-X" = some true ∧
    mapGet undiscoveredConnected.h.remoteInfos "ski-X" = none ∧
    discovered undiscoveredConnected "ski-X" = false ∧
    IndexFunc undiscoveredConnected.h.currentRemoteServices (fun v => v.Ski == "ski-X") = -1 ∧
    updateEntityInfos "ski-X" deviceX "LPC" undiscoveredConnected = none ∧
    OnLPCEvent sampleEnv "ski-X" deviceX entityX .UseCaseSupportUpdate undiscoveredConnected
      = none := by
  decide

/-- C14, evaluated: the record of `ski-A` holds `deviceA` and lists `LPC`. A call
with the new handle `deviceA2` and the tag `LPC` leaves the state as it was,
so the record still holds `deviceA`; the same call with the new tag `LPP`
stores `deviceA2` and appends the tag. -/
theorem present_tag_keeps_old_device :
    mapGet withRecordA.h.remoteInfos "ski-A" = some ⟨⟨"ski-A", "a"⟩, some deviceA, ["LPC"]⟩ ∧
    deviceA2 ≠ deviceA ∧
    updateEntityInfos "ski-A" deviceA2 "LPC" withRecordA = some withRecordA ∧
    (updateEntityInfos "ski-A" deviceA2 "LPP" withRecordA).map
      (fun w1 => mapGet w1.h.remoteInfos "ski-A")
      = some (some ⟨⟨"ski-A", "a"⟩, some deviceA2, ["LPC", "LPP"]⟩) := by
  decide

/-! ## Summaries on every accepted event -/

/-- The state after the registry update and the two summaries is reached from
the state `w0` after `updateEntityInfos` by exactly the two summary messages. -/
theorem summaries_shape {env : Env} {uc ski : String} {device : Device} {w w0 ws w1 : World}
    (hup : updateEntityInfos ski device uc w = some w0)
    (hs : summaries env ski device w0 = some ws)
    (hext : extendsBy notSummary ws w1) (hreg : sameRegistry ws w1) :
    summariesFirst env uc ski device w w1 := by
  have htag := updateEntityInfos_lists_tag hup
  obtain ⟨_, rows, info, hrows, hinfo, rfl⟩ := summaries_of_some hs
  obtain ⟨infos, rfl⟩ := updateEntityInfos_frame hup
  obtain ⟨rest, hout, hrest⟩ := hext
  obtain ⟨_, hri, hui, _, _⟩ := hreg
  dsimp only at hout hri hui hrows
  refine ⟨hasUseCase_of_remoteInfos hri htag, ?_, rows, rest, ?_, ?_, hrest⟩
  · rw [hui, hinfo]
    exact mapGet_mapSet_same _ _ _
  · rw [hri]
    exact hrows
  · rw [hout, hui]

theorem known_of_discovered {w : World} {ski : String} (h : discovered w ski = true) :
    known w ski = true := by
  simp [known, h]

/-- The handler of a connected and discovered identity, with no nil pointer on
the way of the summaries, returns after the registry update, the two
summaries in their order and calls of other kinds. -/
theorem handlerFlow_summariesFirst {env : Env} {uc ski : String} {device : Device}
    {w : World} {result : Option World} (hf : handlerFlow env uc ski device w result)
    (hconn : mapGet w.h.isConnected ski = some true) (hdisc : discovered w ski = true)
    (hw : printable w.h.remoteInfos = true) (hdev : presentable device = true) :
    ∃ w1, result = some w1 ∧ summariesFirst env uc ski device w w1 := by
  obtain ⟨w0, ws, w1, hup, hs, hw1, hext, hreg⟩ :=
    handlerFlow_returns hf hconn (known_of_discovered hdisc) hw hdev
  exact ⟨w1, hw1, summaries_shape hup hs hext hreg⟩

/-- With every device type, actor and use case name present, the four handlers
send the summaries first, for every event of a connected and discovered
identity. -/
theorem summaries_first_when_presentable (env : Env) (ski : String) (device : Device)
    (entity : Entity) (w : World)
    (hconn : mapGet w.h.isConnected ski = some true) (hdisc : discovered w ski = true)
    (hw : printable w.h.remoteInfos = true) (hdev : presentable device = true) :
    (∀ event, ∃ w1, OnLPCEvent env ski device entity event w = some w1 ∧
      summariesFirst env "LPC" ski device w w1) ∧
    (∀ event, ∃ w1, OnLPPEvent env ski device entity event w = some w1 ∧
      summariesFirst env "LPP" ski device w w1) ∧
    (∀ event, ∃ w1, OnMGCPEvent env ski device entity event w = some w1 ∧
      summariesFirst env "MGCP" ski device w w1) ∧
    (∀ event, ∃ w1, OnMPCEvent env ski device entity event w = some w1 ∧
      summariesFirst env "MPC" ski device w w1) :=
  ⟨fun event => handlerFlow_summariesFirst (OnLPCEvent_flow env ski device entity event w)
      hconn hdisc hw hdev,
    fun event => handlerFlow_summariesFirst (OnLPPEvent_flow env ski device entity event w)
      hconn hdisc hw hdev,
    fun event => handlerFlow_summariesFirst (OnMGCPEvent_flow env ski device entity event w)
      hconn hdisc hw hdev,
    fun event => handlerFlow_summariesFirst (OnMPCEvent_flow env ski device entity event w)
      hconn hdisc hw hdev⟩

/-- A handler panics when, behind an open gate and after a successful registry
update, a record cannot be shown. -/
theorem handlerFlow_panics {env : Env} {uc ski : String} {device : Device} {w w0 : World}
    {result : Option World} (hf : handlerFlow env uc ski device w result)
    (hconn : mapGet w.h.isConnected ski = some true)
    (hup : updateEntityInfos ski device uc w = some w0)
    (hw0 : printable w0.h.remoteInfos = false) : result = none := by
  apply hf.2.2.1 w0 hconn hup
  unfold summaries
  rw [sendEntityInfo_eq_none env.rangeOrder GetEntityInfos _ w0 hw0]

/-- C15, evaluated: `ski-A` is connected and discovered; its device has one
entity and reports no device type (`DeviceType()` is nil). The registry update
stores the device, then `sendEntityInfo` dereferences the nil pointer: each
of the four handlers panics, for every event and whatever the order of the
visit of the map, before any message is sent. With the device type present
the same event returns after the two summaries and the power value. -/
theorem summaries_panic_without_device_type (env : Env) :
    mapGet twoDevices.h.isConnected "ski-A" = some true ∧
    discovered twoDevices "ski-A" = true ∧
    deviceNoType.DeviceType = none ∧ deviceNoType.Entities = [entityA] ∧
    (updateEntityInfos "ski-A" deviceNoType "LPC" twoDevices).map
      (fun w0 => mapGet w0.h.remoteInfos "ski-A")
      = some (some ⟨⟨"ski-A", "a"⟩, some deviceNoType, ["LPC"]⟩) ∧
    (∀ entity event, OnLPCEvent env "ski-A" deviceNoType entity event twoDevices = none) ∧
    (∀ entity event, OnLPPEvent env "ski-A" deviceNoType entity event twoDevices = none) ∧
    (∀ entity event, OnMGCPEvent env "ski-A" deviceNoType entity event twoDevices = none) ∧
    (∀ entity event, OnMPCEvent env "ski-A" deviceNoType entity event twoDevices = none) ∧
    (OnMGCPEvent sampleEnv "ski-A" deviceA entityA .DataUpdatePower twoDevices).map
      (fun w1 => uiTypes (emitted twoDevices w1))
      = some [GetEntityInfos, GetUseCaseInfos, GetPower] := by
  have hconn : mapGet twoDevices.h.isConnected "ski-A" = some true := by decide
  have hup : ∀ uc, updateEntityInfos "ski-A" deviceNoType uc twoDevices
      = some { twoDevices with h := { twoDevices.h with
          remoteInfos := [("ski-A", ⟨⟨"ski-A", "a"⟩, some deviceNoType, [uc]⟩)] } } := by
    intro uc
    rfl
  refine ⟨hconn, by decide, rfl, rfl, by decide, ?_, ?_, ?_, ?_, by decide⟩
  · exact fun entity event =>
      handlerFlow_panics (OnLPCEvent_flow env _ _ entity event _) hconn (hup "LPC") rfl
  · exact fun entity event =>
      handlerFlow_panics (OnLPPEvent_flow env _ _ entity event _) hconn (hup "LPP") rfl
  · exact fun entity event =>
      handlerFlow_panics (OnMGCPEvent_flow env _ _ entity event _) hconn (hup "MGCP") rfl
  · exact fun entity event =>
      handlerFlow_panics (OnMPCEvent_flow env _ _ entity event _) hconn (hup "MPC") rfl

/-! ## Session records and connections -/

/-- A record present after `updateEntityInfos` is the record of `ski` or was
present before. -/
theorem updateEntityInfos_records {ski : String} {device : Device} {uc : String}
    {w w0 : World} (hup : updateEntityInfos ski device uc w = some w0) (k : String)
    (hk : (mapGet w0.h.remoteInfos k).isSome = true) :
    k = ski ∨ (mapGet w.h.remoteInfos k).isSome = true := by
  by_cases hks : k = ski
  · exact Or.inl hks
  · right
    unfold updateEntityInfos at hup
    split at hup
    · dsimp only at hup
      split at hup
      · simp at hup
      · simp only [Option.some.injEq] at hup
        subst hup
        simpa [mapGet_mapSet_other _ _ _ _ hks] using hk
    · dsimp only at hup
      split at hup
      · simp only [Option.some.injEq] at hup
        subst hup
        simpa [mapGet_mapSet_other _ _ _ _ hks] using hk
      · simp only [Option.some.injEq] at hup
        subst hup
        exact hk

/-- What an event handler that returned has done to the registry: the
connection flags, the discovery list and the active target are as before, and
a record present afterwards was present before or belongs to a connected
identity. -/
theorem handlerFlow_registry {env : Env} {uc ski : String} {device : Device} {w w1 : World}
    {result : Option World} (hf : handlerFlow env uc ski device w result)
    (hrun : result = some w1) :
    w1.h.isConnected = w.h.isConnected ∧
    w1.h.currentRemoteServices = w.h.currentRemoteServices ∧
    w1.remoteSki = w.remoteSki ∧
    ∀ k, (mapGet w1.h.remoteInfos k).isSome = true →
      (mapGet w.h.remoteInfos k).isSome = true ∨ mapGet w.h.isConnected k = some true := by
  rcases handlerFlow_of_some hf hrun with ⟨_, rfl⟩ | ⟨hconn, w0, ws, hup, hs, _, hreg⟩
  · exact ⟨rfl, rfl, rfl, fun k hk => Or.inl hk⟩
  · obtain ⟨_, rows, info, _, _, rfl⟩ := summaries_of_some hs
    obtain ⟨hic, hri, _, hcs, hrs⟩ := hreg
    obtain ⟨infos, hw0⟩ := updateEntityInfos_frame hup
    dsimp only at hic hri hcs hrs
    refine ⟨by rw [hic, hw0], by rw [hcs, hw0], by rw [hrs, hw0], ?_⟩
    intro k hk
    rw [hri] at hk
    rcases updateEntityInfos_records hup k hk with h | h
    · exact Or.inr (h ▸ hconn)
    · exact Or.inl h

theorem step_tracked {op : Op} {w w1 : World} (hstep : step op w = some w1)
    {seen : String → Prop} (htr : tracked seen w) :
    tracked (fun ski => seen ski ∨ op.connects ski) w1 := by
  have via : (w1.h.isConnected = w.h.isConnected ∧
      w1.h.currentRemoteServices = w.h.currentRemoteServices ∧
      w1.remoteSki = w.remoteSki ∧
      ∀ k, (mapGet w1.h.remoteInfos k).isSome = true →
        (mapGet w.h.remoteInfos k).isSome = true ∨ mapGet w.h.isConnected k = some true) →
      tracked (fun ski => seen ski ∨ op.connects ski) w1 := by
    rintro ⟨hic, _, _, hrec⟩ k hk
    rcases hk with hk | hk
    · exact Or.inl (htr k (hrec k hk))
    · rw [hic] at hk
      exact Or.inl (htr k (Or.inr hk))
  cases op with
  | RemoteSKIConnected s =>
    simp only [step, Option.some.injEq] at hstep
    subst hstep
    intro k hk
    by_cases hks : k = s
    · exact Or.inr hks.symm
    · left
      apply htr k
      rcases hk with hk | hk
      · exact Or.inl hk
      · right
        have : mapGet (mapSet w.h.isConnected s true) k = some true := hk
        rwa [mapGet_mapSet_other _ _ _ _ hks] at this
  | RemoteSKIDisconnected s =>
    simp only [step, Option.some.injEq] at hstep
    subst hstep
    intro k hk
    left
    apply htr k
    rcases hk with hk | hk
    · exact Or.inl hk
    · right
      have hk2 : mapGet (mapSet w.h.isConnected s false) k = some true := hk
      by_cases hks : k = s
      · subst hks
        rw [mapGet_mapSet_same] at hk2
        simp at hk2
      · rwa [mapGet_mapSet_other _ _ _ _ hks] at hk2
  | VisibleRemoteServicesUpdated entries =>
    simp only [step, Option.some.injEq] at hstep
    subst hstep
    have hfold := foldl_sameRegistry
      (fun w (element : RemoteService) =>
        { w with out := w.out ++ [Effect.SetTrusted element.Ski] })
      (fun w a => by simp [sameRegistry]) entries w
    intro k hk
    left
    apply htr k
    have h1 : (VisibleRemoteServicesUpdated entries w).h.remoteInfos = w.h.remoteInfos := by
      simpa [VisibleRemoteServicesUpdated, sendNotification, sendMessage] using hfold.2.1
    have h2 : (VisibleRemoteServicesUpdated entries w).h.isConnected = w.h.isConnected := by
      simpa [VisibleRemoteServicesUpdated, sendNotification, sendMessage] using hfold.1
    rw [h1, h2] at hk
    exact hk
  | OnLPCEvent env ski device entity event =>
    exact via (handlerFlow_registry (OnLPCEvent_flow env ski device entity event w) hstep)
  | OnLPPEvent env ski device entity event =>
    exact via (handlerFlow_registry (OnLPPEvent_flow env ski device entity event w) hstep)
  | OnMGCPEvent env ski device entity event =>
    exact via (handlerFlow_registry (OnMGCPEvent_flow env ski device entity event w) hstep)
  | OnMPCEvent env ski device entity event =>
    exact via (handlerFlow_registry (OnMPCEvent_flow env ski device entity event w) hstep)
  | reader env frame =>
    obtain ⟨hic, hri, _, _⟩ := readerStep_sameMaps hstep
    intro k hk
    rw [hri, hic] at hk
    exact Or.inl (htr k hk)

theorem run_tracked {ops : List Op} {w w1 : World} (hrun : run ops w = some w1)
    {seen : String → Prop} (htr : tracked seen w) :
    tracked (fun ski => seen ski ∨ everConnected ops ski) w1 := by
  induction ops generalizing w seen with
  | nil =>
    simp only [run, Option.some.injEq] at hrun
    subst hrun
    exact fun k hk => Or.inl (htr k hk)
  | cons op rest ih =>
    unfold run at hrun
    split at hrun
    · rename_i w0 hstep
      intro k hk
      rcases ih hrun (step_tracked hstep htr) k hk with (h | h) | h
      · exact Or.inl h
      · exact Or.inr ⟨op, by simp, h⟩
      · obtain ⟨op2, hmem, hc⟩ := h
        exact Or.inr ⟨op2, by simp [hmem], hc⟩
    · simp at hrun

theorem tracked_initial : tracked (fun _ => False) initial := by
  intro k hk
  rcases hk with hk | hk
  · simp [initial, mapGet] at hk
  · simp [initial, mapGet] at hk

/-- C16, as stated, fails: in `twoDevices` both `ski-A` and `ski-B` have
connected, yet `remoteInfos` is empty; a connection creates no session record. -/
theorem record_iff_connected_counterexample :
    run [.VisibleRemoteServicesUpdated [⟨"ski-A", "a"⟩, ⟨"ski-B", "b"⟩],
      .RemoteSKIConnected "ski-A", .RemoteSKIConnected "ski-B"] initial = some twoDevices ∧
    everConnected [.VisibleRemoteServicesUpdated [⟨"ski-A", "a"⟩, ⟨"ski-B", "b"⟩],
      .RemoteSKIConnected "ski-A", .RemoteSKIConnected "ski-B"] "ski-A" ∧
    mapGet twoDevices.h.isConnected "ski-A" = some true ∧
    mapGet twoDevices.h.remoteInfos "ski-A" = none ∧
    twoDevices.h.remoteInfos = [] :=
  ⟨by decide, ⟨.RemoteSKIConnected "ski-A", by simp, rfl⟩, by decide, by decide, by decide⟩

/-- C16, amended: in every state reached from the initial state by connection
events, discovery broadcasts, use case events and UI commands, `remoteInfos`
has a record for an identity only if `RemoteSKIConnected` of that identity
has occurred; `RemoteSKIConnected` itself leaves `remoteInfos` as it is. -/
theorem record_only_after_connect (ops : List Op) (w1 : World) (ski : String)
    (hrun : run ops initial = some w1)
    (hrec : (mapGet w1.h.remoteInfos ski).isSome = true) :
    everConnected ops ski ∧
    ∀ s w, (RemoteSKIConnected s w).h.remoteInfos = w.h.remoteInfos := by
  refine ⟨?_, fun s w => rfl⟩
  rcases run_tracked hrun tracked_initial ski (Or.inl hrec) with h | h
  · exact h.elim
  · exact h

/-- The record of `ski-A` after its first LPC event: `ski-A` connected before. -/
theorem record_only_after_connect_witness :
    run sampleHistory initial = some afterHistory ∧
    (mapGet afterHistory.h.remoteInfos "ski-A").isSome = true ∧
    everConnected sampleHistory "ski-A" :=
  have hrun : run sampleHistory initial = some afterHistory := by decide
  have hrec : (mapGet afterHistory.h.remoteInfos "ski-A").isSome = true := by decide
  ⟨hrun, hrec, (record_only_after_connect sampleHistory afterHistory "ski-A" hrun hrec).1⟩

/-! ## A connection retargets the selection -/

/-- C18: `RemoteSKIConnected(s)` sets the active target to `s`, sets
`isConnected[s]` to `true`, sends one `SelectService` text message carrying
`s` and changes nothing else: the connection flag of every other identity,
`remoteInfos`, `useCaseInfos`, the discovery list and the limit state are as
before. So a target chosen by the UI through `SelectService` is replaced by
the identity of a device that connects afterwards. -/
theorem connect_retargets (s : String) (w : World) :
    (RemoteSKIConnected s w).remoteSki = s ∧
    mapGet (RemoteSKIConnected s w).h.isConnected s = some true ∧
    (RemoteSKIConnected s w).out
      = w.out ++ [Effect.sendMessage { Type_ := SelectService, Text := s }] ∧
    (RemoteSKIConnected s w).h = { w.h with isConnected := mapSet w.h.isConnected s true } ∧
    (∀ k, k ≠ s →
      mapGet (RemoteSKIConnected s w).h.isConnected k = mapGet w.h.isConnected k) ∧
    (RemoteSKIConnected s w).h.remoteInfos = w.h.remoteInfos ∧
    (RemoteSKIConnected s w).h.useCaseInfos = w.h.useCaseInfos ∧
    sameLimitState (RemoteSKIConnected s w).h w.h ∧
    ∀ (env : Env) (t : String) (err : Bool),
      ∃ w1, readerStep env ⟨{ Type_ := SelectService, Text := t }, err⟩ w = some w1 ∧
        w1.remoteSki = t ∧ (RemoteSKIConnected s w1).remoteSki = s := by
  refine ⟨rfl, mapGet_mapSet_same _ _ _, rfl, rfl, ?_, rfl, rfl, ?_, ?_⟩
  · intro k hk
    exact mapGet_mapSet_other _ _ _ _ hk
  · simp [sameLimitState, RemoteSKIConnected, sendText, sendMessage]
  · intro env t err
    have hd : dispatch env { Type_ := SelectService, Text := t } w
        = some (caseSelectService env { Type_ := SelectService, Text := t } w) := by
      simp [dispatch]
    have hsel : (caseSelectService env { Type_ := SelectService, Text := t } w).remoteSki = t := by
      unfold caseSelectService
      dsimp only
      split
      · split <;> rfl
      · split
        · exact (foldl_sameRegistry (fun w entity => readData env entity none w)
            (fun w a => readData_sameRegistry env a none w) _ _).2.2.2.2
        · rfl
    exact ⟨_, readerStep_of_dispatch err hd, hsel, rfl⟩

/-- The UI selects `ski-A` at `twoDevices`, then `ski-C` connects: the active
target is `ski-C`, and the connection flag of `ski-A` is as before. -/
theorem connect_retargets_witness :
    (∃ w1, readerStep sampleEnv ⟨{ Type_ := SelectService, Text := "ski-A" }, false⟩
        twoDevices = some w1 ∧
      w1.remoteSki = "ski-A" ∧ (RemoteSKIConnected "ski-C" w1).remoteSki = "ski-C") ∧
    mapGet (RemoteSKIConnected "ski-C" twoDevices).h.isConnected "ski-A"
      = mapGet twoDevices.h.isConnected "ski-A" :=
  have h := connect_retargets "ski-C" twoDevices
  ⟨h.2.2.2.2.2.2.2.2 sampleEnv "ski-A" false, h.2.2.2.2.1 "ski-A" (by decide)⟩

end Controlbox
